import Mathlib

/-!
# CA bundle injector: a shallow embedding of the reconciliation handlers

The development embeds the two implementations of the CA bundle controller,

* `pkg/akv2k8s/controller/cabundleinjector/controller.go` (namespace `CABundleInjector`),
* `cmd/azure-keyvault-controller/controller/caBundle.go` (namespace `KeyVaultController`),

over an explicit model of the collaborators they call: the informer caches read
through the listers, the API server reached through the clientset, and the
rate limited work queues.

Conventions.

* A Go `string` or `[]byte` that carries certificate material is a list of bytes
  (`Bytes`); the conversion `string(b)` copies the bytes, so it is the identity on
  that list.  Identifiers (object names, namespaces, UIDs, label values, resource
  versions) are Lean strings.
* A Go map is an association list; `m[k]` on a missing key (or on a nil map) gives
  the zero value of the element type (`mapIndex`).
* A Go `error` is a `GoError`; the nil error is `none`.
* Every handler returns a `Run`: the state of the API server after the call, the
  write requests it issued in order (whether or not the server accepted them), the
  event records it emitted, and the value it returned.
* Listers read the informer caches (`Informers`), the clientset reads and writes the
  API server (`ApiServer`); the two are separate values, so a handler call reads the
  caches as they were when it started. `resync` lets the cache of configuration
  objects catch up between two calls.
* `Faults` lets any collaborator call fail with a chosen error, so the error paths
  of the handlers can be reached.
* Log statements have no effect on the modelled state and are left out.
-/

namespace Akv2k8s

/-! ## Data model (the fields of the Kubernetes objects the controller touches) -/

deriving instance DecidableEq for Except

/-- A sequence of bytes: the content of a Go byte slice or of a Go string. -/
abbrev Bytes := List (Fin 256)

/-- Go map indexing: the stored value, or the zero value when the key is missing. -/
def mapIndex {β : Type} (zero : β) (m : List (String × β)) (k : String) : β :=
  (m.lookup k).getD zero

/-- The type metav1.OwnerReference; the two pointer fields are options. -/
structure OwnerReference where
  apiVersion : String
  kind : String
  name : String
  uid : String
  controller : Option Bool
  blockOwnerDeletion : Option Bool
deriving DecidableEq, Repr

/-- The fields of corev1.Secret that the controller reads; ns is the metadata field
Namespace. -/
structure Secret where
  name : String
  ns : String
  uid : String
  resourceVersion : String
  data : List (String × Bytes)
  stringData : List (String × Bytes)
deriving DecidableEq, Repr

/-- The fields of corev1.Namespace that the controller reads. A namespace is cluster
scoped: its own metadata namespace is empty. -/
structure Namespace where
  name : String
  resourceVersion : String
  labels : List (String × String)
deriving DecidableEq, Repr

/-- The fields of corev1.ConfigMap that the controller reads or sets; ns is the
metadata field Namespace. -/
structure ConfigMap where
  name : String
  ns : String
  ownerReferences : List OwnerReference
  data : List (String × Bytes)
deriving DecidableEq, Repr

/-- The type schema.GroupVersionKind. -/
structure GroupVersionKind where
  group : String
  version : String
  kind : String
deriving DecidableEq, Repr

/-- The method schema.GroupVersion.String, applied to the group and version of a
GroupVersionKind: empty when both are empty, the bare version for the legacy
group, group/version otherwise. -/
def GroupVersionKind.groupVersionString (gvk : GroupVersionKind) : String :=
  if gvk.group = "" ∧ gvk.version = "" then ""
  else if gvk.group = "" ∧ gvk.version = "v1" then gvk.version
  else if gvk.group ≠ "" then gvk.group ++ "/" ++ gvk.version
  else gvk.version

/-- The constant corev1.SchemeGroupVersion: the legacy core group, version v1. -/
def SchemeGroupVersionGroup : String := ""

/-- The version half of corev1.SchemeGroupVersion. -/
def SchemeGroupVersionVersion : String := "v1"

/-- The function metav1.NewControllerRef: a reference to the owner with both
Controller and BlockOwnerDeletion pointing at true. -/
def NewControllerRef (owner : Secret) (gvk : GroupVersionKind) : OwnerReference :=
  { apiVersion := gvk.groupVersionString
    kind := gvk.kind
    name := owner.name
    uid := owner.uid
    controller := some true
    blockOwnerDeletion := some true }

/-- The function metav1.GetControllerOf: the first owner reference whose Controller
pointer is set and true. -/
def GetControllerOf (refs : List OwnerReference) : Option OwnerReference :=
  refs.find? (fun r => r.controller == some true)

/-- The function metav1.IsControlledBy: the controlling reference exists and carries
the UID of the owner. -/
def IsControlledBy (obj : ConfigMap) (owner : Secret) : Bool :=
  match GetControllerOf obj.ownerReferences with
  | none => false
  | some ref => ref.uid == owner.uid

/-- A controller owner reference to the given secret: Controller is true and the UID is
the UID of the secret. -/
def OwnerReference.controls (r : OwnerReference) (owner : Secret) : Bool :=
  r.controller == some true && r.uid == owner.uid

/-! ## Collaborators: errors, informer caches, API server, write requests -/

/-- A non-nil Go error value, as far as the controller can tell errors apart:
errors.IsNotFound recognises the first constructor only. -/
inductive GoError where
  | statusNotFound (resource : String) (name : String)
  | statusAlreadyExists (resource : String) (name : String)
  | statusBadRequest (text : String)
  | other (text : String)
  | errorf (text : String)
deriving DecidableEq, Repr

/-- The function errors.IsNotFound. It is false on the nil error. -/
def IsNotFound : Option GoError → Bool
  | some (GoError.statusNotFound _ _) => true
  | _ => false

/-- The text fmt.Sprintf gives for a format with one %s verb and one string operand:
the operand replaces the verb, the rest is copied. -/
def sprintfS : List Char → String → List Char
  | [], _ => []
  | '%' :: 's' :: rest, arg => arg.data ++ rest
  | ch :: rest, arg => ch :: sprintfS rest arg

/-- Where the scan of a format string stands: in plain text, or inside a verb, after
the percent sign, at the flags, in the digits of the width, after a star width, right
after the dot of the precision, in the digits of the precision, or after a star
precision. -/
inductive FormatMode where
  | text
  | flags
  | width
  | afterWidth
  | precisionStart
  | precision
  | afterPrecision
deriving DecidableEq, Repr

/-- The flag characters of a fmt verb. -/
def isFormatFlag (ch : Char) : Bool :=
  ch = '#' || ch = '0' || ch = '+' || ch = '-' || ch = ' '

/-- The scan of fmt over a format used without operands (doPrintf with an empty operand
list): text outside verbs is copied; after a percent sign the flags, a width (digits,
or a star, which has no operand and is reported as a bad width) and a precision (a dot
with digits, or with a star, reported as a bad precision) are passed over; then the
verb character is reported as missing its operand, unless it is a second percent sign,
which stands for itself; a format that ends inside a verb has no verb. Explicit
argument indexes (square brackets) and widths too long for fmt are not modelled. -/
def formatScan : FormatMode → List Char → List Char
  | .text, [] => []
  | _, [] => "%!(NOVERB)".data
  | .text, ch :: rest =>
    if ch = '%' then formatScan .flags rest else ch :: formatScan .text rest
  | mode, ch :: rest =>
    if mode = .flags && isFormatFlag ch then formatScan .flags rest
    else if mode = .flags && ch = '*' then "%!(BADWIDTH)".data ++ formatScan .afterWidth rest
    else if (mode = .flags || mode = .width) && ch.isDigit then formatScan .width rest
    else if (mode = .flags || mode = .width || mode = .afterWidth) && ch = '.' then
      formatScan .precisionStart rest
    else if mode = .precisionStart && ch = '*' then
      "%!(BADPREC)".data ++ formatScan .afterPrecision rest
    else if (mode = .precisionStart || mode = .precision) && ch.isDigit then
      formatScan .precision rest
    else if ch = '%' then '%' :: formatScan .text rest
    else "%!".data ++ ch :: "(MISSING)".data ++ formatScan .text rest

/-- The text fmt gives for a format used without operands. -/
def formatNoOperands (format : List Char) : List Char :=
  formatScan .text format

/-- The call fmt.Errorf(msg) with no operands. -/
def Errorf (msg : String) : GoError :=
  GoError.errorf (String.mk (formatNoOperands msg.data))

/-- The method Error of a Go error: its message. -/
def GoError.Error : GoError → String
  | .statusNotFound resource name => resource ++ " \"" ++ name ++ "\" not found"
  | .statusAlreadyExists resource name => resource ++ " \"" ++ name ++ "\" already exists"
  | .statusBadRequest text => text
  | .other text => text
  | .errorf text => text

/-- Failures injected into the collaborators: each entry, when set, is the error the
corresponding call returns instead of its normal answer. -/
structure Faults where
  secretLister : String → String → Option GoError
  namespaceListerGet : String → Option GoError
  namespaceListerList : Option GoError
  configMapLister : String → String → Option GoError
  secretsGet : String → String → Option GoError
  configMapsCreate : String → String → Option GoError
  configMapsUpdate : String → String → Option GoError
  configMapsDelete : String → String → Option GoError

/-- No injected failure. -/
def noFaults : Faults :=
  { secretLister := fun _ _ => none
    namespaceListerGet := fun _ => none
    namespaceListerList := none
    configMapLister := fun _ _ => none
    secretsGet := fun _ _ => none
    configMapsCreate := fun _ _ => none
    configMapsUpdate := fun _ _ => none
    configMapsDelete := fun _ _ => none }

/-- The informer caches the listers read from. -/
structure Informers where
  secrets : List Secret
  namespaces : List Namespace
  configMaps : List ConfigMap
deriving DecidableEq, Repr

/-- The objects held by the API server that the clientset reads and writes. -/
structure ApiServer where
  secrets : List Secret
  configMaps : List ConfigMap
deriving DecidableEq, Repr

/-- What a handler reads without changing it: the caches and the injected failures. -/
structure Env where
  faults : Faults
  informers : Informers

/-- A write request sent through the clientset, with the namespace of the client it
was sent through. -/
inductive Op where
  | create (ns : String) (obj : ConfigMap)
  | update (ns : String) (obj : ConfigMap)
  | delete (ns : String) (name : String)
deriving DecidableEq, Repr

/-- The namespace and object name a write request is aimed at. -/
def Op.target : Op → String × String
  | .create ns obj => (ns, obj.name)
  | .update ns obj => (ns, obj.name)
  | .delete ns name => (ns, name)

/-- The request is a create. -/
def Op.isCreate : Op → Bool
  | .create _ _ => true
  | _ => false

/-- The request is an update. -/
def Op.isUpdate : Op → Bool
  | .update _ _ => true
  | _ => false

/-- The request is a delete. -/
def Op.isDelete : Op → Bool
  | .delete _ _ => true
  | _ => false

/-- An event record sent through the recorder: the kind, namespace and name of the
object it is about, its type, reason and message. -/
structure EventRecord where
  kind : String
  ns : String
  name : String
  eventtype : String
  reason : String
  message : String
deriving DecidableEq, Repr

/-- The outcome of one handler call. -/
structure Run where
  api : ApiServer
  ops : List Op
  events : List EventRecord
  ret : Option GoError
deriving DecidableEq, Repr

/-- The call secretLister.Secrets(ns).Get(name): a cached read. -/
def secretListerGet (env : Env) (ns name : String) : Except GoError Secret :=
  match env.faults.secretLister ns name with
  | some err => .error err
  | none =>
    match env.informers.secrets.find? (fun s => s.ns == ns && s.name == name) with
    | some s => .ok s
    | none => .error (.statusNotFound "secret" name)

/-- The call namespaceLister.Get(name): a cached read. -/
def namespaceListerGet (env : Env) (name : String) : Except GoError Namespace :=
  match env.faults.namespaceListerGet name with
  | some err => .error err
  | none =>
    match env.informers.namespaces.find? (fun n => n.name == name) with
    | some n => .ok n
    | none => .error (.statusNotFound "namespace" name)

/-- A selector built from MatchLabels matches a label set that has every listed key
with the listed value. -/
def selectorMatches (matchLabels : List (String × String)) (labels : List (String × String)) : Bool :=
  matchLabels.all (fun kv => labels.lookup kv.1 == some kv.2)

/-- The call namespaceLister.List(selector): the cached namespaces the selector
matches, in the order of the cached list. The lister of client-go walks a Go map, so
the order of its answer is not fixed and may differ from one call to the next: an
answer in another order is the answer for an Informers value whose namespaces are
listed in that order. -/
def namespaceListerList (env : Env) (matchLabels : List (String × String)) :
    Except GoError (List Namespace) :=
  match env.faults.namespaceListerList with
  | some err => .error err
  | none => .ok (env.informers.namespaces.filter (fun n => selectorMatches matchLabels n.labels))

/-- The call configMapLister.ConfigMaps(ns).Get(name): a cached read. -/
def configMapListerGet (env : Env) (ns name : String) : Except GoError ConfigMap :=
  match env.faults.configMapLister ns name with
  | some err => .error err
  | none =>
    match env.informers.configMaps.find? (fun cm => cm.ns == ns && cm.name == name) with
    | some cm => .ok cm
    | none => .error (.statusNotFound "configmap" name)

/-- The call kubeclientset.CoreV1().Secrets(ns).Get(name): a direct read. -/
def secretsGet (env : Env) (api : ApiServer) (ns name : String) : Except GoError Secret :=
  match env.faults.secretsGet ns name with
  | some err => .error err
  | none =>
    match api.secrets.find? (fun s => s.ns == ns && s.name == name) with
    | some s => .ok s
    | none => .error (.statusNotFound "secrets" name)

/-- The object with that namespace and name is stored. -/
def ApiServer.hasConfigMap (api : ApiServer) (ns name : String) : Bool :=
  api.configMaps.any (fun cm => cm.ns == ns && cm.name == name)

/-- The call kubeclientset.CoreV1().ConfigMaps(ns).Create(obj): the object is stored
unless a failure is injected, its namespace is not the one of the client, or an
object of that name is already stored. -/
def configMapsCreate (env : Env) (api : ApiServer) (ns : String) (obj : ConfigMap) :
    ApiServer × Option GoError :=
  match env.faults.configMapsCreate ns obj.name with
  | some err => (api, some err)
  | none =>
    if obj.ns ≠ ns then (api, some (.statusBadRequest "namespace does not match"))
    else if api.hasConfigMap ns obj.name then
      (api, some (.statusAlreadyExists "configmaps" obj.name))
    else ({ api with configMaps := api.configMaps ++ [obj] }, none)

/-- The call kubeclientset.CoreV1().ConfigMaps(ns).Update(obj): the stored object of
that name is replaced; it is an error when none is stored. -/
def configMapsUpdate (env : Env) (api : ApiServer) (ns : String) (obj : ConfigMap) :
    ApiServer × Option GoError :=
  match env.faults.configMapsUpdate ns obj.name with
  | some err => (api, some err)
  | none =>
    if obj.ns ≠ ns then (api, some (.statusBadRequest "namespace does not match"))
    else if api.hasConfigMap ns obj.name then
      ({ api with configMaps :=
          api.configMaps.map (fun cm => if cm.ns == ns && cm.name == obj.name then obj else cm) },
        none)
    else (api, some (.statusNotFound "configmaps" obj.name))

/-- The call kubeclientset.CoreV1().ConfigMaps(ns).Delete(name, options): the stored
object of that name is removed; it is an error when none is stored. -/
def configMapsDelete (env : Env) (api : ApiServer) (ns name : String) :
    ApiServer × Option GoError :=
  match env.faults.configMapsDelete ns name with
  | some err => (api, some err)
  | none =>
    if api.hasConfigMap ns name then
      ({ api with configMaps :=
          api.configMaps.filter (fun cm => !(cm.ns == ns && cm.name == name)) }, none)
    else (api, some (.statusNotFound "configmaps" name))

/-- The function strings.Split(key, "/") on the characters of the key. -/
def splitOnSlash : List Char → List (List Char)
  | [] => [[]]
  | ch :: rest =>
    if ch = '/' then [] :: splitOnSlash rest
    else
      match splitOnSlash rest with
      | [] => [[ch]]
      | part :: parts => (ch :: part) :: parts

/-- The function cache.SplitMetaNamespaceKey: namespace and name, or nothing when the
key has more than two parts (the function then returns an error, which every caller
only tests against nil). -/
def SplitMetaNamespaceKey (key : String) : Option (String × String) :=
  match splitOnSlash key.data with
  | [name] => some ("", String.mk name)
  | [ns, name] => some (String.mk ns, String.mk name)
  | _ => none

/-- The function cache.MetaNamespaceKeyFunc on the metadata namespace and name of an
object: namespace/name, or the bare name for a cluster scoped object. -/
def MetaNamespaceKeyFunc (ns name : String) : String :=
  if ns ≠ "" then ns ++ "/" ++ name else name

namespace CABundleInjector

/-- The constant MessageResourceExists. -/
def MessageResourceExists : String :=
  "Resource '%s' already exists and is not managed by CA Bundle Injector"

/-- The configuration fields of the Controller struct. -/
structure Controller where
  labelName : String
  caBundleSecretName : String
  caBundleSecretNamespaceName : String
  caBundleConfigMapName : String
deriving DecidableEq, Repr

/-- The function newConfigMap of cabundleinjector/controller.go. -/
def newConfigMap (name : String) (ns : String) (secret : Secret) : ConfigMap :=
  let dataByte : Bytes := mapIndex [] secret.data "caCert"
  { name := name
    ns := ns
    ownerReferences :=
      [NewControllerRef secret
        { group := SchemeGroupVersionGroup
          version := SchemeGroupVersionVersion
          kind := "Secret" }]
    data := [("caCert", dataByte)] }

/-- The method Controller.isNamespacesLabelled. -/
def isNamespacesLabelled (c : Controller) (ns : Namespace) : Bool :=
  let lbl := mapIndex "" ns.labels c.labelName
  if lbl = "enabled" then true else false

/-- The state of the loop of syncHandlerSecret over the labelled namespaces: the API
server, the requests issued so far and, once the loop body has executed a return
statement, the returned value. -/
structure LoopRun where
  api : ApiServer
  ops : List Op
  events : List EventRecord
  returned : Option (Option GoError)
deriving DecidableEq, Repr

/-- The loop of syncHandlerSecret (lines 386 to 437) over the remaining namespaces. -/
def syncHandlerSecretLoop (c : Controller) (env : Env) (secret : Secret) :
    List Namespace → ApiServer → LoopRun
  | [], api => { api := api, ops := [], events := [], returned := none }
  | ns :: rest, api =>
    match configMapListerGet env ns.name "akv2k8s-ca" with
    | .error err =>
      if IsNotFound (some err) then
        let newCM := newConfigMap c.caBundleConfigMapName ns.name secret
        let created := configMapsCreate env api ns.name newCM
        { api := created.1, ops := [Op.create ns.name newCM], events := [],
          returned := some created.2 }
      else
        { api := api, ops := [], events := [], returned := some (some err) }
    | .ok configMap =>
      if !IsControlledBy configMap secret then
        let msg := String.mk (sprintfS MessageResourceExists.data configMap.name)
        { api := api, ops := [], events := [], returned := some (some (Errorf msg)) }
      else if mapIndex [] configMap.data "caCert" ≠ mapIndex [] secret.stringData "caCert" then
        let newCM := newConfigMap c.caBundleConfigMapName ns.name secret
        let updated := configMapsUpdate env api ns.name newCM
        match updated.2 with
        | some err =>
          { api := updated.1, ops := [Op.update ns.name newCM], events := [],
            returned := some (some err) }
        | none =>
          let tail := syncHandlerSecretLoop c env secret rest updated.1
          { tail with ops := Op.update ns.name newCM :: tail.ops }
      else syncHandlerSecretLoop c env secret rest api

/-- The method Controller.syncHandlerSecret. The selector is built from constant,
valid labels, so LabelSelectorAsSelector does not fail. -/
def syncHandlerSecret (c : Controller) (env : Env) (api : ApiServer) (key : String) : Run :=
  match SplitMetaNamespaceKey key with
  | none => { api := api, ops := [], events := [], ret := none }
  | some (namespaceName, name) =>
    match secretListerGet env namespaceName name with
    | .error err =>
      if IsNotFound (some err) then { api := api, ops := [], events := [], ret := none }
      else { api := api, ops := [], events := [], ret := some err }
    | .ok secret =>
      match namespaceListerList env [("azure-key-vault-env-injection", "enabled")] with
      | .error err => { api := api, ops := [], events := [], ret := some err }
      | .ok labelledNamespaces =>
        let loop := syncHandlerSecretLoop c env secret labelledNamespaces api
        match loop.returned with
        | some result => { api := loop.api, ops := loop.ops, events := loop.events, ret := result }
        | none => { api := loop.api, ops := loop.ops, events := loop.events, ret := none }

/-- The method Controller.syncHandlerNewNamespace. -/
def syncHandlerNewNamespace (c : Controller) (env : Env) (api : ApiServer) (key : String) : Run :=
  match namespaceListerGet env key with
  | .error err => { api := api, ops := [], events := [], ret := some err }
  | .ok ns =>
    match configMapListerGet env key c.caBundleConfigMapName with
    | .error err =>
      if IsNotFound (some err) then
        match secretsGet env api c.caBundleSecretNamespaceName c.caBundleSecretName with
        | .error err => { api := api, ops := [], events := [], ret := some err }
        | .ok secret =>
          let newCM := newConfigMap c.caBundleConfigMapName ns.name secret
          let created := configMapsCreate env api ns.name newCM
          { api := created.1, ops := [Op.create ns.name newCM], events := [], ret := created.2 }
      else { api := api, ops := [], events := [], ret := some err }
    | .ok _ => { api := api, ops := [], events := [], ret := none }

/-- The method Controller.syncHandlerChangedNamespace. The lister returns a non-nil
object together with a nil error, so the test cm != nil holds on that path. -/
def syncHandlerChangedNamespace (c : Controller) (env : Env) (api : ApiServer) (key : String) :
    Run :=
  match namespaceListerGet env key with
  | .error err => { api := api, ops := [], events := [], ret := some err }
  | .ok ns =>
    match configMapListerGet env key c.caBundleConfigMapName with
    | .error err =>
      if IsNotFound (some err) then
        match secretsGet env api c.caBundleSecretNamespaceName c.caBundleSecretName with
        | .error err => { api := api, ops := [], events := [], ret := some err }
        | .ok secret =>
          let newCM := newConfigMap c.caBundleConfigMapName ns.name secret
          let created := configMapsCreate env api ns.name newCM
          { api := created.1, ops := [Op.create ns.name newCM], events := [], ret := created.2 }
      else { api := api, ops := [], events := [], ret := some err }
    | .ok _ =>
      if !isNamespacesLabelled c ns then
        let deleted := configMapsDelete env api key c.caBundleConfigMapName
        { api := deleted.1, ops := [Op.delete key c.caBundleConfigMapName], events := [],
          ret := deleted.2 }
      else { api := api, ops := [], events := [], ret := none }

/-- The three work queues of the controller: the keys handed to AddRateLimited, in
call order. -/
structure Queues where
  secretWorkqueue : List String
  newNamespaceWorkqueue : List String
  changedNamespaceWorkqueue : List String
deriving DecidableEq, Repr

/-- The method Controller.enqueueNewNamespace on a namespace object. The key function
cannot fail on an object that has metadata. -/
def enqueueNewNamespace (q : Queues) (obj : Namespace) : Queues :=
  let key := MetaNamespaceKeyFunc "" obj.name
  { q with newNamespaceWorkqueue := q.newNamespaceWorkqueue ++ [key] }

/-- The AddFunc registered on the namespace informer in NewController. -/
def namespaceAddFunc (c : Controller) (q : Queues) (obj : Namespace) : Queues :=
  let lbl := mapIndex "" obj.labels c.labelName
  if lbl = "" then q else enqueueNewNamespace q obj

/-- The method Controller.enqueueChangedNamespace on a namespace object. -/
def enqueueChangedNamespace (q : Queues) (obj : Namespace) : Queues :=
  let key := MetaNamespaceKeyFunc "" obj.name
  { q with changedNamespaceWorkqueue := q.changedNamespaceWorkqueue ++ [key] }

/-- The UpdateFunc registered on the namespace informer in NewController. -/
def namespaceUpdateFunc (c : Controller) (q : Queues) (old new : Namespace) : Queues :=
  if new.resourceVersion = old.resourceVersion then q
  else
    let newLbl := mapIndex "" new.labels c.labelName
    let oldLbl := mapIndex "" old.labels c.labelName
    let diffLabels : Bool := newLbl != oldLbl
    if !diffLabels then q else enqueueChangedNamespace q new

/-- The method Controller.enqueueSecret on a secret object. -/
def enqueueSecret (q : Queues) (obj : Secret) : Queues :=
  let key := MetaNamespaceKeyFunc obj.ns obj.name
  { q with secretWorkqueue := q.secretWorkqueue ++ [key] }

/-- The AddFunc registered on the secret informer in NewController; the name it
compares with is the caBundleSecretName the controller was built with. -/
def secretAddFunc (c : Controller) (q : Queues) (obj : Secret) : Queues :=
  if obj.name ≠ c.caBundleSecretName then q else enqueueSecret q obj

/-- The UpdateFunc registered on the secret informer in NewController. -/
def secretUpdateFunc (c : Controller) (q : Queues) (old new : Secret) : Queues :=
  if new.name ≠ c.caBundleSecretName then q
  else if new.resourceVersion = old.resourceVersion then q
  else enqueueSecret q new

/-- What the secret informer hands to the DeleteFunc as obj: the deleted secret, or,
when the informer missed the delete event itself, a cache.DeletedFinalStateUnknown
value holding the key and the last state it knew of the secret. -/
inductive DeleteNotification where
  | object (secret : Secret)
  | deletedFinalStateUnknown (key : String) (lastKnown : Secret)
deriving DecidableEq, Repr

/-- The DeleteFunc registered on the secret informer in NewController. Its first
statement is the unchecked type assertion obj.(*corev1.Secret), which panics when obj
is a cache.DeletedFinalStateUnknown: the callback then has no result (none) and has
enqueued nothing. -/
def secretDeleteFunc (c : Controller) (q : Queues) (obj : DeleteNotification) :
    Option Queues :=
  match obj with
  | .deletedFinalStateUnknown _ _ => none
  | .object secret =>
    some (if secret.name ≠ c.caBundleSecretName then q else enqueueSecret q secret)

/-- The constant workQueueTypeSecret. -/
def workQueueTypeSecret : String := "secret"

/-- The constant workQueueTypeNewNamespace. -/
def workQueueTypeNewNamespace : String := "newNamespace"

/-- The constant workQueueTypeChangedNamespace. -/
def workQueueTypeChangedNamespace : String := "changedNamespace"

/-- An item handed out by the method Get of a work queue: a string key, or a value of
some other type. -/
inductive WorkItem where
  | key (s : String)
  | other (description : String)
deriving DecidableEq, Repr

/-- A call made on the work queue while one item is processed. -/
inductive QueueCall where
  | addRateLimited (item : WorkItem)
  | forget (item : WorkItem)
  | done (item : WorkItem)
deriving DecidableEq, Repr

/-- A handler invocation made by processNextWorkItem, with its key. -/
inductive HandlerCall where
  | syncHandlerSecret (key : String)
  | syncHandlerNewNamespace (key : String)
  | syncHandlerChangedNamespace (key : String)
deriving DecidableEq, Repr

/-- The outcome of one call of processNextWorkItem: the boolean it returns, the calls
it made on the queue after Get, in order, the handlers it invoked, and what the
handler did to the API server. -/
structure WorkItemRun where
  result : Bool
  queueCalls : List QueueCall
  handlerCalls : List HandlerCall
  api : ApiServer
  ops : List Op
deriving DecidableEq, Repr

/-- The switch on typeOfQueue in processNextWorkItem (lines 311 to 318): the handler
invoked and its outcome; a type outside the three constants invokes nothing and
leaves err nil. -/
def dispatchHandler (c : Controller) (env : Env) (api : ApiServer) (typeOfQueue : String)
    (key : String) : List HandlerCall × Run :=
  if typeOfQueue = workQueueTypeSecret then
    ([HandlerCall.syncHandlerSecret key], syncHandlerSecret c env api key)
  else if typeOfQueue = workQueueTypeNewNamespace then
    ([HandlerCall.syncHandlerNewNamespace key], syncHandlerNewNamespace c env api key)
  else if typeOfQueue = workQueueTypeChangedNamespace then
    ([HandlerCall.syncHandlerChangedNamespace key], syncHandlerChangedNamespace c env api key)
  else ([], { api := api, ops := [], events := [], ret := none })

/-- The method Controller.processNextWorkItem, given what queue.Get() returned (the
item and the shutdown flag). The deferred queue.Done(obj) runs when the inner function
returns, hence after Forget or AddRateLimited. -/
def processNextWorkItem (c : Controller) (env : Env) (api : ApiServer)
    (obj : WorkItem) (shutdown : Bool) (typeOfQueue : String) : WorkItemRun :=
  if shutdown then
    { result := false, queueCalls := [], handlerCalls := [], api := api, ops := [] }
  else
    match obj with
    | .other description =>
      { result := true
        queueCalls := [QueueCall.forget (.other description), QueueCall.done (.other description)]
        handlerCalls := [], api := api, ops := [] }
    | .key key =>
      let handled := dispatchHandler c env api typeOfQueue key
      match handled.2.ret with
      | some _ =>
        { result := true
          queueCalls := [QueueCall.addRateLimited (.key key), QueueCall.done (.key key)]
          handlerCalls := handled.1, api := handled.2.api, ops := handled.2.ops }
      | none =>
        { result := true
          queueCalls := [QueueCall.forget (.key key), QueueCall.done (.key key)]
          handlerCalls := handled.1, api := handled.2.api, ops := handled.2.ops }

end CABundleInjector

namespace KeyVaultController

/-- The fields of the Controller struct of package controller that caBundle.go reads.
The struct and the package constants are declared in files outside caBundle.go, so
the constants are fields here: messageResourceExists is the text
fmt.Sprintf(MessageResourceExists, name) as a function of the name. -/
structure Controller where
  namespaceAkvsLabel : String
  caBundleSecretName : String
  caBundleSecretNamespaceName : String
  caBundleConfigMapName : String
  messageResourceExists : String → String
  errResourceExists : String
  errConfigMap : String
  successSynced : String
  messageResourceSynced : String

/-- The function newConfigMap of caBundle.go. -/
def newConfigMap (name : String) (ns : String) (secret : Secret) : ConfigMap :=
  let dataByte : Bytes := mapIndex [] secret.data "ca.crt"
  { name := name
    ns := ns
    ownerReferences :=
      [NewControllerRef secret
        { group := SchemeGroupVersionGroup
          version := SchemeGroupVersionVersion
          kind := "Secret" }]
    data := [("caCert", dataByte)] }

/-- The method Controller.isNamespaceLabelled. -/
def isNamespaceLabelled (c : Controller) (ns : Namespace) : Bool :=
  let lbl := mapIndex "" ns.labels c.namespaceAkvsLabel
  if lbl = "enabled" then true else false

/-- The method Controller.getAllAkvsLabelledNamespaces. -/
def getAllAkvsLabelledNamespaces (env : Env) : Except GoError (List Namespace) :=
  namespaceListerList env [("azure-key-vault-env-injection", "enabled")]

/-- The loop of syncCABundleSecret (lines 67 to 120) over the remaining namespaces. -/
def syncCABundleSecretLoop (c : Controller) (env : Env) (secret : Secret) :
    List Namespace → ApiServer → CABundleInjector.LoopRun
  | [], api => { api := api, ops := [], events := [], returned := none }
  | ns :: rest, api =>
    match configMapListerGet env ns.name c.caBundleConfigMapName with
    | .error err =>
      if IsNotFound (some err) then
        let newCM := newConfigMap c.caBundleConfigMapName ns.name secret
        let created := configMapsCreate env api ns.name newCM
        match created.2 with
        | some err =>
          let msg := "failed to create configmap " ++ newCM.name ++ " in namespace " ++ ns.name
          { api := created.1, ops := [Op.create ns.name newCM],
            events := [{ kind := "ConfigMap", ns := newCM.ns, name := newCM.name,
                         eventtype := "Warning", reason := c.errConfigMap, message := msg }],
            returned := some (some err) }
        | none =>
          { api := created.1, ops := [Op.create ns.name newCM], events := [],
            returned := some none }
      else
        { api := api, ops := [], events := [], returned := some (some err) }
    | .ok configMap =>
      if !IsControlledBy configMap secret then
        let msg := c.messageResourceExists configMap.name
        { api := api, ops := [],
          events := [{ kind := "Secret", ns := secret.ns, name := secret.name,
                       eventtype := "Warning", reason := c.errResourceExists, message := msg }],
          returned := some (some (Errorf msg)) }
      else if mapIndex [] configMap.data "caCert" ≠ mapIndex [] secret.stringData "caCert" then
        let newCM := newConfigMap c.caBundleConfigMapName ns.name secret
        let updated := configMapsUpdate env api ns.name newCM
        match updated.2 with
        | some err =>
          let msg := "failed to update configmap " ++ newCM.name ++ " in namespace " ++ ns.name
          { api := updated.1, ops := [Op.update ns.name newCM],
            events := [{ kind := "ConfigMap", ns := newCM.ns, name := newCM.name,
                         eventtype := "Warning", reason := c.errConfigMap, message := msg }],
            returned := some (some err) }
        | none =>
          let tail := syncCABundleSecretLoop c env secret rest updated.1
          { tail with ops := Op.update ns.name newCM :: tail.ops }
      else syncCABundleSecretLoop c env secret rest api

/-- The method Controller.syncCABundleSecret. The error of
getAllAkvsLabelledNamespaces is assigned and never tested: when the listing fails the
loop runs over the nil slice. -/
def syncCABundleSecret (c : Controller) (env : Env) (api : ApiServer) (key : String) : Run :=
  match SplitMetaNamespaceKey key with
  | none => { api := api, ops := [], events := [], ret := none }
  | some (namespaceName, name) =>
    match secretListerGet env namespaceName name with
    | .error err =>
      if IsNotFound (some err) then { api := api, ops := [], events := [], ret := none }
      else { api := api, ops := [], events := [], ret := some err }
    | .ok secret =>
      let labelledNamespaces : List Namespace :=
        match getAllAkvsLabelledNamespaces env with
        | .error _ => []
        | .ok namespaces => namespaces
      let loop := syncCABundleSecretLoop c env secret labelledNamespaces api
      match loop.returned with
      | some result => { api := loop.api, ops := loop.ops, events := loop.events, ret := result }
      | none =>
        { api := loop.api, ops := loop.ops,
          events := loop.events ++
            [{ kind := "Secret", ns := secret.ns, name := secret.name, eventtype := "Normal",
               reason := c.successSynced, message := c.messageResourceSynced }],
          ret := none }

/-- The method Controller.syncHandlerNewNamespace of caBundle.go. The lister returns a
non-nil object together with a nil error, so the test cm != nil holds on that path. -/
def syncHandlerNewNamespace (c : Controller) (env : Env) (api : ApiServer) (key : String) : Run :=
  match namespaceListerGet env key with
  | .error err => { api := api, ops := [], events := [], ret := some err }
  | .ok ns =>
    match configMapListerGet env key c.caBundleConfigMapName with
    | .error err =>
      if IsNotFound (some err) then
        match secretsGet env api c.caBundleSecretNamespaceName c.caBundleSecretName with
        | .error err => { api := api, ops := [], events := [], ret := some err }
        | .ok secret =>
          let newCM := newConfigMap c.caBundleConfigMapName ns.name secret
          let created := configMapsCreate env api ns.name newCM
          { api := created.1, ops := [Op.create ns.name newCM], events := [], ret := created.2 }
      else { api := api, ops := [], events := [], ret := some err }
    | .ok cm =>
      match secretsGet env api c.caBundleSecretNamespaceName c.caBundleSecretName with
      | .error err => { api := api, ops := [], events := [], ret := some err }
      | .ok secret =>
        let newCM := newConfigMap c.caBundleConfigMapName ns.name secret
        let updated := configMapsUpdate env api ns.name newCM
        match updated.2 with
        | some err =>
          { api := updated.1, ops := [Op.update ns.name newCM], events := [], ret := some err }
        | none =>
          { api := updated.1, ops := [Op.update ns.name newCM],
            events := [{ kind := "ConfigMap", ns := cm.ns, name := cm.name, eventtype := "Normal",
                         reason := c.successSynced, message := c.messageResourceSynced }],
            ret := none }

/-- The method Controller.syncHandlerChangedNamespace of caBundle.go. -/
def syncHandlerChangedNamespace (c : Controller) (env : Env) (api : ApiServer) (key : String) :
    Run :=
  match namespaceListerGet env key with
  | .error err => { api := api, ops := [], events := [], ret := some err }
  | .ok ns =>
    match configMapListerGet env ns.name c.caBundleConfigMapName with
    | .error err =>
      if IsNotFound (some err) then
        match secretsGet env api c.caBundleSecretNamespaceName c.caBundleSecretName with
        | .error err => { api := api, ops := [], events := [], ret := some err }
        | .ok secret =>
          let newCM := newConfigMap c.caBundleConfigMapName ns.name secret
          let created := configMapsCreate env api ns.name newCM
          { api := created.1, ops := [Op.create ns.name newCM], events := [], ret := created.2 }
      else { api := api, ops := [], events := [], ret := some err }
    | .ok _ =>
      if !isNamespaceLabelled c ns then
        let deleted := configMapsDelete env api key c.caBundleConfigMapName
        { api := deleted.1, ops := [Op.delete key c.caBundleConfigMapName], events := [],
          ret := deleted.2 }
      else { api := api, ops := [], events := [], ret := none }

end KeyVaultController

/-! ## Concrete cluster states used to evaluate the handlers -/

namespace Scenario

/-- The bytes of the text CERT_V1. -/
def certV1 : Bytes := [67, 69, 82, 84, 95, 86, 49]

/-- The bytes of the text CERT_V2. -/
def certV2 : Bytes := [67, 69, 82, 84, 95, 86, 50]

/-- The Source Secret akv2k8s/ca-bundle as the API server serves it: the given fields
under Data, no StringData (the API server never returns that write-only field). -/
def sourceSecret (data : List (String × Bytes)) : Secret :=
  { name := "ca-bundle", ns := "akv2k8s", uid := "uid-ca-bundle", resourceVersion := "7",
    data := data, stringData := [] }

/-- The cabundleinjector controller as cmd/ca-bundle-controller/main.go configures it
by default. -/
def injector : CABundleInjector.Controller :=
  { labelName := "azure-key-vault-env-injection"
    caBundleSecretName := "ca-bundle"
    caBundleSecretNamespaceName := "akv2k8s"
    caBundleConfigMapName := "akv2k8s-ca" }

/-- A controller of package controller with sample values for the package constants. -/
def keyVault : KeyVaultController.Controller :=
  { namespaceAkvsLabel := "azure-key-vault-env-injection"
    caBundleSecretName := "ca-bundle"
    caBundleSecretNamespaceName := "akv2k8s"
    caBundleConfigMapName := "akv2k8s-ca"
    messageResourceExists := fun name =>
      "Resource '" ++ name ++ "' already exists and is not managed by Azure Key Vault Controller"
    errResourceExists := "ErrResourceExists"
    errConfigMap := "ErrConfigMap"
    successSynced := "Synced"
    messageResourceSynced := "CA Bundle synced successfully" }

/-- A namespace whose opt-in label has the given value. -/
def labelled (name value : String) : Namespace :=
  { name := name, resourceVersion := "1",
    labels := [("azure-key-vault-env-injection", value)] }

/-- A namespace without labels. -/
def unlabelled (name : String) : Namespace :=
  { name := name, resourceVersion := "1", labels := [] }

/-- A configuration object named akv2k8s-ca that somebody else put in the namespace:
it has no owner reference. -/
def foreignConfigMap (ns : String) : ConfigMap :=
  { name := "akv2k8s-ca", ns := ns, ownerReferences := [],
    data := [("caCert", [102, 111, 114, 101, 105, 103, 110])] }

/-- The caches in sync with a cluster that holds the given objects; no failure is
injected. -/
def envOf (secret : Secret) (namespaces : List Namespace) (configMaps : List ConfigMap) : Env :=
  { faults := noFaults
    informers := { secrets := [secret], namespaces := namespaces, configMaps := configMaps } }

/-- The API server of a cluster that holds the given objects. -/
def apiOf (secret : Secret) (configMaps : List ConfigMap) : ApiServer :=
  { secrets := [secret], configMaps := configMaps }

end Scenario

/-- The informer cache of configuration objects has caught up with the API server;
the rest of the environment is unchanged. -/
def resync (env : Env) (api : ApiServer) : Env :=
  { env with informers := { env.informers with configMaps := api.configMaps } }

/-- Two calls of a handler in succession on the same key with no outside change: the
second call starts from the API server the first one left, with the cache of
configuration objects caught up. -/
def twice (handler : Env → ApiServer → String → Run) (env : Env) (api : ApiServer)
    (key : String) : Run × Run :=
  let first := handler env api key
  (first, handler (resync env first.api) first.api key)

/-- The object stored on the API server under that namespace and name, if any. -/
def ApiServer.configMap (api : ApiServer) (ns name : String) : Option ConfigMap :=
  api.configMaps.find? (fun cm => cm.ns == ns && cm.name == name)

/-- The injected failures let the object (ns, name) be created by a handler that looks
it up first: the create is not made to fail, and the cached read is either left alone
or made to report not found. -/
def Faults.allowCreate (faults : Faults) (ns name : String) : Bool :=
  (faults.configMapsCreate ns name).isNone &&
    (match faults.configMapLister ns name with
      | none => true
      | some err => IsNotFound (some err))

/-- Going from one state of the API server to a later one keeps the derived object of
a namespace: the secrets are the same; if the object stored under (ns, name) was the
built object it still is; if none was stored, none or the built object is stored; if
one was stored, one still is. -/
def Keeps (ns name : String) (built : ConfigMap) (api later : ApiServer) : Prop :=
  later.secrets = api.secrets ∧
  (api.configMap ns name = some built → later.configMap ns name = some built) ∧
  (api.configMap ns name = none →
    later.configMap ns name = none ∨ later.configMap ns name = some built) ∧
  ((api.configMap ns name).isSome = true → (later.configMap ns name).isSome = true)

/-- The newly-labelled handler for a namespace, then the secret-changed handler, with
no outside change: the state of the API server after both. -/
def newNamespaceThenSecret (c : CABundleInjector.Controller) (env : Env) (api : ApiServer)
    (namespaceKey secretKey : String) : ApiServer :=
  let first := CABundleInjector.syncHandlerNewNamespace c env api namespaceKey
  (CABundleInjector.syncHandlerSecret c (resync env first.api) first.api secretKey).api

/-- The secret-changed handler, then the newly-labelled handler for a namespace, with
no outside change: the state of the API server after both. -/
def secretThenNewNamespace (c : CABundleInjector.Controller) (env : Env) (api : ApiServer)
    (namespaceKey secretKey : String) : ApiServer :=
  let first := CABundleInjector.syncHandlerSecret c env api secretKey
  (CABundleInjector.syncHandlerNewNamespace c (resync env first.api) first.api namespaceKey).api

/-! ## Lemmas on the collaborators and on the loops -/

theorem configMapListerGet_ok {env : Env} {ns name : String} {cm : ConfigMap}
    (h : configMapListerGet env ns name = .ok cm) : cm.ns = ns ∧ cm.name = name := by
  unfold configMapListerGet at h
  split at h
  · cases h
  · split at h
    · rename_i found hfind
      cases h
      have := List.find?_some hfind
      simpa using this
    · cases h

theorem namespaceListerGet_ok {env : Env} {name : String} {n : Namespace}
    (h : namespaceListerGet env name = .ok n) : n.name = name := by
  unfold namespaceListerGet at h
  split at h
  · cases h
  · split at h
    · rename_i found hfind
      cases h
      have := List.find?_some hfind
      simpa using this
    · cases h

theorem not_controlled_of_no_controller_ref {cm : ConfigMap} {secret : Secret}
    (h : ∀ r ∈ cm.ownerReferences, r.controls secret = false) :
    IsControlledBy cm secret = false := by
  unfold IsControlledBy
  split
  · rfl
  · rename_i ref hfind
    unfold GetControllerOf at hfind
    have hmem := List.mem_of_find?_eq_some hfind
    have hctl := List.find?_some hfind
    have := h ref hmem
    simp [OwnerReference.controls] at this hctl ⊢
    exact this hctl

namespace CABundleInjector

theorem syncHandlerSecretLoop_append (c : Controller) (env : Env) (secret : Secret) :
    ∀ (pre rest : List Namespace) (api : ApiServer),
      (syncHandlerSecretLoop c env secret pre api).returned = none →
      syncHandlerSecretLoop c env secret (pre ++ rest) api =
        { api := (syncHandlerSecretLoop c env secret rest
                    (syncHandlerSecretLoop c env secret pre api).api).api
          ops := (syncHandlerSecretLoop c env secret pre api).ops ++
                 (syncHandlerSecretLoop c env secret rest
                    (syncHandlerSecretLoop c env secret pre api).api).ops
          events := (syncHandlerSecretLoop c env secret pre api).events ++
                 (syncHandlerSecretLoop c env secret rest
                    (syncHandlerSecretLoop c env secret pre api).api).events
          returned := (syncHandlerSecretLoop c env secret rest
                    (syncHandlerSecretLoop c env secret pre api).api).returned } := by
  intro pre
  induction pre with
  | nil => intro rest api _; simp [syncHandlerSecretLoop]
  | cons n pre ih =>
    intro rest api h
    simp only [List.cons_append]
    cases hget : configMapListerGet env n.name "akv2k8s-ca" with
    | error err =>
      by_cases hnf : IsNotFound (some err) = true <;>
        simp [syncHandlerSecretLoop, hget, hnf] at h
    | ok configMap =>
      by_cases hc : IsControlledBy configMap secret = true
      · by_cases hd : mapIndex [] configMap.data "caCert" = mapIndex [] secret.stringData "caCert"
        · simp only [syncHandlerSecretLoop, hget, hc, hd] at h ⊢
          simp at h ⊢
          exact ih rest api h
        · cases hu : (configMapsUpdate env api n.name
              (newConfigMap c.caBundleConfigMapName n.name secret)).2 with
          | some e => simp [syncHandlerSecretLoop, hget, hc, hd, hu] at h
          | none =>
            simp only [syncHandlerSecretLoop, hget, hc, hd, hu] at h ⊢
            simp [hd] at h ⊢
            have := ih rest _ h
            simp [this]
      · simp [syncHandlerSecretLoop, hget, hc] at h

theorem syncHandlerSecretLoop_ops (c : Controller) (env : Env) (secret : Secret) :
    ∀ (l : List Namespace) (api : ApiServer) (op : Op),
      op ∈ (syncHandlerSecretLoop c env secret l api).ops →
      ∃ n ∈ l,
        (op = Op.create n.name (newConfigMap c.caBundleConfigMapName n.name secret) ∧
          ∃ err, configMapListerGet env n.name "akv2k8s-ca" = .error err) ∨
        (op = Op.update n.name (newConfigMap c.caBundleConfigMapName n.name secret) ∧
          ∃ cm, configMapListerGet env n.name "akv2k8s-ca" = .ok cm ∧
            IsControlledBy cm secret = true) := by
  intro l
  induction l with
  | nil => intro api op h; simp [syncHandlerSecretLoop] at h
  | cons n l ih =>
    intro api op h
    cases hget : configMapListerGet env n.name "akv2k8s-ca" with
    | error err =>
      by_cases hnf : IsNotFound (some err) = true
      · simp [syncHandlerSecretLoop, hget, hnf] at h
        exact ⟨n, List.mem_cons_self _ _, Or.inl ⟨h, err, hget⟩⟩
      · simp [syncHandlerSecretLoop, hget, hnf] at h
    | ok configMap =>
      by_cases hc : IsControlledBy configMap secret = true
      · by_cases hd : mapIndex [] configMap.data "caCert" = mapIndex [] secret.stringData "caCert"
        · simp only [syncHandlerSecretLoop, hget, hc, hd] at h
          simp at h
          obtain ⟨m, hm, hop⟩ := ih api op h
          exact ⟨m, List.mem_cons_of_mem _ hm, hop⟩
        · cases hu : (configMapsUpdate env api n.name
              (newConfigMap c.caBundleConfigMapName n.name secret)).2 with
          | some e =>
            simp [syncHandlerSecretLoop, hget, hc, hd, hu] at h
            exact ⟨n, List.mem_cons_self _ _, Or.inr ⟨h, configMap, hget, hc⟩⟩
          | none =>
            simp only [syncHandlerSecretLoop, hget, hc, hd, hu] at h
            simp [hd] at h
            rcases h with h | h
            · exact ⟨n, List.mem_cons_self _ _, Or.inr ⟨h, configMap, hget, hc⟩⟩
            · obtain ⟨m, hm, hop⟩ := ih _ op h
              exact ⟨m, List.mem_cons_of_mem _ hm, hop⟩
      · simp [syncHandlerSecretLoop, hget, hc] at h

end CABundleInjector

namespace KeyVaultController

theorem syncCABundleSecretLoop_append (c : Controller) (env : Env) (secret : Secret) :
    ∀ (pre rest : List Namespace) (api : ApiServer),
      (syncCABundleSecretLoop c env secret pre api).returned = none →
      syncCABundleSecretLoop c env secret (pre ++ rest) api =
        { api := (syncCABundleSecretLoop c env secret rest
                    (syncCABundleSecretLoop c env secret pre api).api).api
          ops := (syncCABundleSecretLoop c env secret pre api).ops ++
                 (syncCABundleSecretLoop c env secret rest
                    (syncCABundleSecretLoop c env secret pre api).api).ops
          events := (syncCABundleSecretLoop c env secret pre api).events ++
                 (syncCABundleSecretLoop c env secret rest
                    (syncCABundleSecretLoop c env secret pre api).api).events
          returned := (syncCABundleSecretLoop c env secret rest
                    (syncCABundleSecretLoop c env secret pre api).api).returned } := by
  intro pre
  induction pre with
  | nil => intro rest api _; simp [syncCABundleSecretLoop]
  | cons n pre ih =>
    intro rest api h
    simp only [List.cons_append]
    cases hget : configMapListerGet env n.name c.caBundleConfigMapName with
    | error err =>
      by_cases hnf : IsNotFound (some err) = true
      · cases hcr : (configMapsCreate env api n.name
              (newConfigMap c.caBundleConfigMapName n.name secret)).2 <;>
          simp [syncCABundleSecretLoop, hget, hnf, hcr] at h
      · simp [syncCABundleSecretLoop, hget, hnf] at h
    | ok configMap =>
      by_cases hc : IsControlledBy configMap secret = true
      · by_cases hd : mapIndex [] configMap.data "caCert" = mapIndex [] secret.stringData "caCert"
        · simp only [syncCABundleSecretLoop, hget, hc, hd] at h ⊢
          simp at h ⊢
          exact ih rest api h
        · cases hu : (configMapsUpdate env api n.name
              (newConfigMap c.caBundleConfigMapName n.name secret)).2 with
          | some e => simp [syncCABundleSecretLoop, hget, hc, hd, hu] at h
          | none =>
            simp only [syncCABundleSecretLoop, hget, hc, hd, hu] at h ⊢
            simp [hd] at h ⊢
            have := ih rest _ h
            simp [this]
      · simp [syncCABundleSecretLoop, hget, hc] at h

theorem syncCABundleSecretLoop_ops (c : Controller) (env : Env) (secret : Secret) :
    ∀ (l : List Namespace) (api : ApiServer) (op : Op),
      op ∈ (syncCABundleSecretLoop c env secret l api).ops →
      ∃ n ∈ l,
        (op = Op.create n.name (newConfigMap c.caBundleConfigMapName n.name secret) ∧
          ∃ err, configMapListerGet env n.name c.caBundleConfigMapName = .error err) ∨
        (op = Op.update n.name (newConfigMap c.caBundleConfigMapName n.name secret) ∧
          ∃ cm, configMapListerGet env n.name c.caBundleConfigMapName = .ok cm ∧
            IsControlledBy cm secret = true) := by
  intro l
  induction l with
  | nil => intro api op h; simp [syncCABundleSecretLoop] at h
  | cons n l ih =>
    intro api op h
    cases hget : configMapListerGet env n.name c.caBundleConfigMapName with
    | error err =>
      by_cases hnf : IsNotFound (some err) = true
      · cases hcr : (configMapsCreate env api n.name
              (newConfigMap c.caBundleConfigMapName n.name secret)).2 <;>
        · simp [syncCABundleSecretLoop, hget, hnf, hcr] at h
          exact ⟨n, List.mem_cons_self _ _, Or.inl ⟨h, err, hget⟩⟩
      · simp [syncCABundleSecretLoop, hget, hnf] at h
    | ok configMap =>
      by_cases hc : IsControlledBy configMap secret = true
      · by_cases hd : mapIndex [] configMap.data "caCert" = mapIndex [] secret.stringData "caCert"
        · simp only [syncCABundleSecretLoop, hget, hc, hd] at h
          simp at h
          obtain ⟨m, hm, hop⟩ := ih api op h
          exact ⟨m, List.mem_cons_of_mem _ hm, hop⟩
        · cases hu : (configMapsUpdate env api n.name
              (newConfigMap c.caBundleConfigMapName n.name secret)).2 with
          | some e =>
            simp [syncCABundleSecretLoop, hget, hc, hd, hu] at h
            exact ⟨n, List.mem_cons_self _ _, Or.inr ⟨h, configMap, hget, hc⟩⟩
          | none =>
            simp only [syncCABundleSecretLoop, hget, hc, hd, hu] at h
            simp [hd] at h
            rcases h with h | h
            · exact ⟨n, List.mem_cons_self _ _, Or.inr ⟨h, configMap, hget, hc⟩⟩
            · obtain ⟨m, hm, hop⟩ := ih _ op h
              exact ⟨m, List.mem_cons_of_mem _ hm, hop⟩
      · simp [syncCABundleSecretLoop, hget, hc] at h

end KeyVaultController

namespace CABundleInjector

theorem syncHandlerSecretLoop_creates (c : Controller) (env : Env) (secret : Secret) :
    ∀ (l : List Namespace) (api : ApiServer),
      (syncHandlerSecretLoop c env secret l api).ops.countP Op.isCreate ≤ 1 ∧
      ((syncHandlerSecretLoop c env secret l api).returned = none →
        (syncHandlerSecretLoop c env secret l api).ops.countP Op.isCreate = 0) := by
  intro l
  induction l with
  | nil => intro api; simp [syncHandlerSecretLoop]
  | cons n l ih =>
    intro api
    cases hget : configMapListerGet env n.name "akv2k8s-ca" with
    | error err =>
      by_cases hnf : IsNotFound (some err) = true <;>
        simp [syncHandlerSecretLoop, hget, hnf, Op.isCreate]
    | ok configMap =>
      by_cases hc : IsControlledBy configMap secret = true
      · by_cases hd : mapIndex [] configMap.data "caCert" = mapIndex [] secret.stringData "caCert"
        · simp only [syncHandlerSecretLoop, hget, hc, hd]
          simpa using ih api
        · cases hu : (configMapsUpdate env api n.name
              (newConfigMap c.caBundleConfigMapName n.name secret)).2 with
          | some e => simp [syncHandlerSecretLoop, hget, hc, hd, hu, Op.isCreate]
          | none =>
            simp only [syncHandlerSecretLoop, hget, hc, hd, hu]
            simpa [hd, Op.isCreate] using ih (configMapsUpdate env api n.name
              (newConfigMap c.caBundleConfigMapName n.name secret)).1
      · simp [syncHandlerSecretLoop, hget, hc]

end CABundleInjector

namespace KeyVaultController

theorem syncCABundleSecretLoop_creates (c : Controller) (env : Env) (secret : Secret) :
    ∀ (l : List Namespace) (api : ApiServer),
      (syncCABundleSecretLoop c env secret l api).ops.countP Op.isCreate ≤ 1 ∧
      ((syncCABundleSecretLoop c env secret l api).returned = none →
        (syncCABundleSecretLoop c env secret l api).ops.countP Op.isCreate = 0) := by
  intro l
  induction l with
  | nil => intro api; simp [syncCABundleSecretLoop]
  | cons n l ih =>
    intro api
    cases hget : configMapListerGet env n.name c.caBundleConfigMapName with
    | error err =>
      by_cases hnf : IsNotFound (some err) = true
      · cases hcr : (configMapsCreate env api n.name
              (newConfigMap c.caBundleConfigMapName n.name secret)).2 <;>
          simp [syncCABundleSecretLoop, hget, hnf, hcr, Op.isCreate]
      · simp [syncCABundleSecretLoop, hget, hnf, Op.isCreate]
    | ok configMap =>
      by_cases hc : IsControlledBy configMap secret = true
      · by_cases hd : mapIndex [] configMap.data "caCert" = mapIndex [] secret.stringData "caCert"
        · simp only [syncCABundleSecretLoop, hget, hc, hd]
          simpa using ih api
        · cases hu : (configMapsUpdate env api n.name
              (newConfigMap c.caBundleConfigMapName n.name secret)).2 with
          | some e => simp [syncCABundleSecretLoop, hget, hc, hd, hu, Op.isCreate]
          | none =>
            simp only [syncCABundleSecretLoop, hget, hc, hd, hu]
            simpa [hd, Op.isCreate] using ih (configMapsUpdate env api n.name
              (newConfigMap c.caBundleConfigMapName n.name secret)).1
      · simp [syncCABundleSecretLoop, hget, hc]

end KeyVaultController
theorem Keeps.refl (ns name : String) (built : ConfigMap) (api : ApiServer) :
    Keeps ns name built api api :=
  ⟨rfl, id, Or.inl, id⟩

theorem Keeps.trans {ns name : String} {built : ConfigMap} {a b c : ApiServer}
    (hab : Keeps ns name built a b) (hbc : Keeps ns name built b c) :
    Keeps ns name built a c := by
  obtain ⟨s1, b1, a1, p1⟩ := hab
  obtain ⟨s2, b2, a2, p2⟩ := hbc
  refine ⟨s2.trans s1, fun h => b2 (b1 h), ?_, fun h => p2 (p1 h)⟩
  intro h
  rcases a1 h with h' | h'
  · exact a2 h'
  · exact Or.inr (b2 h')

namespace CABundleInjector

theorem keeps_configMapsCreate (env : Env) (api : ApiServer) (ns name target : String)
    (secret : Secret) :
    Keeps ns name (newConfigMap name ns secret) api
      (configMapsCreate env api target (newConfigMap name target secret)).1 := by
  unfold configMapsCreate
  split
  · exact Keeps.refl _ _ _ _
  · split
    · exact Keeps.refl _ _ _ _
    · split
      · exact Keeps.refl _ _ _ _
      · by_cases ht : target = ns
        · subst ht
          refine ⟨rfl, ?_, ?_, ?_⟩ <;>
            simp only [ApiServer.configMap, List.find?_append] <;>
            cases api.configMaps.find? (fun cm => cm.ns == target && cm.name == name) <;>
            simp [newConfigMap]
        · refine ⟨rfl, ?_, ?_, ?_⟩ <;>
            simp only [ApiServer.configMap, List.find?_append] <;>
            cases api.configMaps.find? (fun cm => cm.ns == ns && cm.name == name) <;>
            simp [newConfigMap, ht]

theorem keeps_configMapsUpdate (env : Env) (api : ApiServer) (ns name target : String)
    (secret : Secret) :
    Keeps ns name (newConfigMap name ns secret) api
      (configMapsUpdate env api target (newConfigMap name target secret)).1 := by
  unfold configMapsUpdate
  split
  · exact Keeps.refl _ _ _ _
  · split
    · exact Keeps.refl _ _ _ _
    · split
      · have hcomp : ((fun cm : ConfigMap => cm.ns == ns && cm.name == name) ∘
            (fun cm : ConfigMap =>
              if (cm.ns == target && cm.name == (newConfigMap name target secret).name) = true
              then newConfigMap name target secret else cm))
            = (fun cm : ConfigMap => cm.ns == ns && cm.name == name) := by
          funext cm
          simp only [Function.comp]
          split
          · rename_i h
            simp [newConfigMap] at h ⊢
            simp [h.1, h.2]
          · rfl
        refine ⟨rfl, ?_, ?_, ?_⟩
        · simp only [ApiServer.configMap, List.find?_map, hcomp]
          intro h
          rw [h]
          simp only [Option.map_some']
          split
          · rename_i hm
            simp [newConfigMap] at hm
            simp [newConfigMap, hm]
          · rfl
        · simp only [ApiServer.configMap, List.find?_map, hcomp]
          intro h
          rw [h]
          exact Or.inl rfl
        · simp only [ApiServer.configMap, List.find?_map, hcomp]
          intro h
          simpa using h
      · exact Keeps.refl _ _ _ _

theorem keeps_syncHandlerSecretLoop (c : Controller) (env : Env) (secret : Secret)
    (ns : String) :
    ∀ (l : List Namespace) (api : ApiServer),
      Keeps ns c.caBundleConfigMapName (newConfigMap c.caBundleConfigMapName ns secret) api
        (syncHandlerSecretLoop c env secret l api).api := by
  intro l
  induction l with
  | nil => intro api; exact Keeps.refl _ _ _ _
  | cons n l ih =>
    intro api
    cases hget : configMapListerGet env n.name "akv2k8s-ca" with
    | error err =>
      by_cases hnf : IsNotFound (some err) = true
      · simp only [syncHandlerSecretLoop, hget, hnf]
        exact keeps_configMapsCreate env api ns c.caBundleConfigMapName n.name secret
      · simp only [syncHandlerSecretLoop, hget, hnf]
        exact Keeps.refl _ _ _ _
    | ok configMap =>
      by_cases hc : IsControlledBy configMap secret = true
      · by_cases hd : mapIndex [] configMap.data "caCert" = mapIndex [] secret.stringData "caCert"
        · simp only [syncHandlerSecretLoop, hget, hc, hd]
          simpa using ih api
        · have hstep := keeps_configMapsUpdate env api ns c.caBundleConfigMapName n.name secret
          cases hu : (configMapsUpdate env api n.name
              (newConfigMap c.caBundleConfigMapName n.name secret)).2 with
          | some e =>
            simp only [syncHandlerSecretLoop, hget, hc, hd, hu]
            simpa [hd] using hstep
          | none =>
            simp only [syncHandlerSecretLoop, hget, hc, hd, hu]
            simpa [hd] using hstep.trans (ih _)
      · simp only [syncHandlerSecretLoop, hget, hc]
        simpa using Keeps.refl ns c.caBundleConfigMapName
          (newConfigMap c.caBundleConfigMapName ns secret) api

theorem keeps_syncHandlerSecret (c : Controller) (env : Env) (api : ApiServer)
    (key namespaceName name ns : String) (secret : Secret)
    (hkey : SplitMetaNamespaceKey key = some (namespaceName, name))
    (hsecret : secretListerGet env namespaceName name = .ok secret) :
    Keeps ns c.caBundleConfigMapName (newConfigMap c.caBundleConfigMapName ns secret) api
      (syncHandlerSecret c env api key).api := by
  cases hlist : namespaceListerList env [("azure-key-vault-env-injection", "enabled")] with
  | error err =>
    simp only [syncHandlerSecret, hkey, hsecret, hlist]
    exact Keeps.refl _ _ _ _
  | ok namespaces =>
    have h := keeps_syncHandlerSecretLoop c env secret ns namespaces api
    simp only [syncHandlerSecret, hkey, hsecret, hlist]
    split <;> exact h

end CABundleInjector

theorem configMapListerGet_resync (inf : Informers) (api : ApiServer) (ns name : String) :
    configMapListerGet (resync { faults := noFaults, informers := inf } api) ns name
      = match api.configMap ns name with
        | some cm => .ok cm
        | none => .error (GoError.statusNotFound "configmap" name) := by
  simp only [configMapListerGet, resync, noFaults, ApiServer.configMap]

theorem resync_of_in_sync (faults : Faults) (inf : Informers) (api : ApiServer)
    (hsync : inf.configMaps = api.configMaps) :
    resync { faults := faults, informers := inf } api = { faults := faults, informers := inf } := by
  cases inf
  simp only [resync] at hsync ⊢
  simp_all

theorem hasConfigMap_of_configMap_none {api : ApiServer} {ns name : String}
    (h : api.configMap ns name = none) : api.hasConfigMap ns name = false := by
  unfold ApiServer.configMap at h
  unfold ApiServer.hasConfigMap
  rw [List.find?_eq_none] at h
  rw [Bool.eq_false_iff]
  intro hany
  rw [List.any_eq_true] at hany
  obtain ⟨x, hx, hp⟩ := hany
  exact h x hx hp

namespace CABundleInjector

theorem syncHandlerNewNamespace_in_sync (c : Controller) (faults : Faults) (inf : Informers)
    (api : ApiServer) (key : String) (n : Namespace) (secret : Secret)
    (hns : namespaceListerGet { faults := faults, informers := inf } key = .ok n)
    (hdirect : secretsGet { faults := faults, informers := inf } api
      c.caBundleSecretNamespaceName c.caBundleSecretName = .ok secret) :
    (syncHandlerNewNamespace c (resync { faults := faults, informers := inf } api) api key).api
      = if api.configMap key c.caBundleConfigMapName = none ∧
            faults.allowCreate key c.caBundleConfigMapName = true
        then { api with configMaps :=
                api.configMaps ++ [newConfigMap c.caBundleConfigMapName key secret] }
        else api := by
  have hname : n.name = key := namespaceListerGet_ok hns
  have hns' : namespaceListerGet (resync { faults := faults, informers := inf } api) key
      = .ok n := hns
  have hdirect' : secretsGet (resync { faults := faults, informers := inf } api) api
      c.caBundleSecretNamespaceName c.caBundleSecretName = .ok secret := hdirect
  have hnm : (newConfigMap c.caBundleConfigMapName key secret).name
      = c.caBundleConfigMapName := rfl
  have hnn : (newConfigMap c.caBundleConfigMapName key secret).ns = key := rfl
  have hfc : (resync { faults := faults, informers := inf } api).faults.configMapsCreate
      = faults.configMapsCreate := rfl
  have hget : configMapListerGet (resync { faults := faults, informers := inf } api) key
        c.caBundleConfigMapName
      = match faults.configMapLister key c.caBundleConfigMapName with
        | some err => .error err
        | none =>
          match api.configMap key c.caBundleConfigMapName with
          | some cm => .ok cm
          | none => .error (GoError.statusNotFound "configmap" c.caBundleConfigMapName) := by
    simp only [configMapListerGet, resync, ApiServer.configMap]
  cases hfault : faults.configMapLister key c.caBundleConfigMapName with
  | some err =>
    rw [hfault] at hget
    by_cases hnf : IsNotFound (some err) = true
    · cases hcm : api.configMap key c.caBundleConfigMapName with
      | none =>
        have hhas := hasConfigMap_of_configMap_none hcm
        cases hcr : faults.configMapsCreate key c.caBundleConfigMapName <;>
          simp [syncHandlerNewNamespace, hns', hget, hdirect', hnf, hname, configMapsCreate,
            hfc, hnm, hnn, hcr, hhas, Faults.allowCreate, hfault, hcm]
      | some cm =>
        have hcm' : List.find? (fun x => x.ns == key && x.name == c.caBundleConfigMapName)
            api.configMaps = some cm := hcm
        have hhas : api.hasConfigMap key c.caBundleConfigMapName = true := by
          have hp := List.find?_some hcm'
          have hmem := List.mem_of_find?_eq_some hcm'
          unfold ApiServer.hasConfigMap
          rw [List.any_eq_true]
          exact ⟨cm, hmem, hp⟩
        cases hcr : faults.configMapsCreate key c.caBundleConfigMapName <;>
          simp [syncHandlerNewNamespace, hns', hget, hdirect', hnf, hname, configMapsCreate,
            hfc, hnm, hnn, hcr, hhas, Faults.allowCreate, hfault, hcm]
    · simp [syncHandlerNewNamespace, hns', hget, hnf, Faults.allowCreate, hfault]
  | none =>
    rw [hfault] at hget
    cases hcm : api.configMap key c.caBundleConfigMapName with
    | none =>
      rw [hcm] at hget
      have hhas := hasConfigMap_of_configMap_none hcm
      cases hcr : faults.configMapsCreate key c.caBundleConfigMapName <;>
        simp [syncHandlerNewNamespace, hns', hget, hdirect', IsNotFound, hname, configMapsCreate,
          hfc, hnm, hnn, hcr, hhas, Faults.allowCreate, hfault, hcm]
    | some cm =>
      rw [hcm] at hget
      simp [syncHandlerNewNamespace, hns', hget]

end CABundleInjector
namespace CABundleInjector

/-- Secret notifications that carry a secret object. The AddFunc, and the DeleteFunc on
a notification that is the secret itself, append namespace/name of the secret (the bare
name when the namespace is empty) to the secret queue exactly when its name is the
configured caBundleSecretName; the UpdateFunc does so for the new secret exactly when
its name is the configured name and its resource version differs from the old one.
Otherwise the queues stay as they are, and the two namespace queues always do. -/
theorem secret_notifications_with_object
    (c : Controller) (q : Queues) (obj old new : Secret) :
    secretAddFunc c q obj
      = (if obj.name = c.caBundleSecretName then
          { q with secretWorkqueue := q.secretWorkqueue ++
              [if obj.ns = "" then obj.name else obj.ns ++ "/" ++ obj.name] }
        else q) ∧
    secretDeleteFunc c q (.object obj)
      = some (if obj.name = c.caBundleSecretName then
          { q with secretWorkqueue := q.secretWorkqueue ++
              [if obj.ns = "" then obj.name else obj.ns ++ "/" ++ obj.name] }
        else q) ∧
    secretUpdateFunc c q old new
      = (if new.name = c.caBundleSecretName ∧ new.resourceVersion ≠ old.resourceVersion then
          { q with secretWorkqueue := q.secretWorkqueue ++
              [if new.ns = "" then new.name else new.ns ++ "/" ++ new.name] }
        else q) := by
  refine ⟨?_, ?_, ?_⟩
  · by_cases h : obj.name = c.caBundleSecretName <;> by_cases hn : obj.ns = "" <;>
      simp [secretAddFunc, enqueueSecret, MetaNamespaceKeyFunc, h, hn]
  · by_cases h : obj.name = c.caBundleSecretName <;> by_cases hn : obj.ns = "" <;>
      simp [secretDeleteFunc, enqueueSecret, MetaNamespaceKeyFunc, h, hn]
  · by_cases h : new.name = c.caBundleSecretName <;>
      by_cases hv : new.resourceVersion = old.resourceVersion <;>
      by_cases hn : new.ns = "" <;>
      simp [secretUpdateFunc, enqueueSecret, MetaNamespaceKeyFunc, h, hv, hn]

end CABundleInjector

/-! ## Theorems -/

/-- C1: for every name, namespace and secret, newConfigMap returns an object with that
name and namespace, whose data map is the single entry caCert holding the bytes of
secret.Data[caCert] unchanged (no bytes when the field is missing), and whose owner
references are exactly one reference with apiVersion v1, kind Secret, the name and
UID of the secret and Controller set to true. The function is total. -/
theorem C1_newConfigMap_contract (name ns : String) (secret : Secret) :
    (CABundleInjector.newConfigMap name ns secret).name = name ∧
    (CABundleInjector.newConfigMap name ns secret).ns = ns ∧
    (CABundleInjector.newConfigMap name ns secret).data
      = [("caCert", match secret.data.lookup "caCert" with
                    | some bytes => bytes
                    | none => [])] ∧
    (∃ r : OwnerReference,
      (CABundleInjector.newConfigMap name ns secret).ownerReferences = [r] ∧
      r.apiVersion = "v1" ∧ r.kind = "Secret" ∧ r.name = secret.name ∧
      r.uid = secret.uid ∧ r.controller = some true) := by
  refine ⟨rfl, rfl, ?_, ?_⟩
  · cases h : secret.data.lookup "caCert" <;>
      simp [CABundleInjector.newConfigMap, mapIndex, h]
  · exact ⟨_, rfl, rfl, rfl, rfl, rfl, rfl⟩

open Scenario

/-- C2, counterexample: namespace c holds a configuration object named akv2k8s-ca
without any owner reference. With no label on the namespace, the label-changed handler
of cabundleinjector issues a delete for that object and the API server drops it; with
the label set to enabled, the newly-labelled handler of caBundle.go issues an update
that overwrites it. -/
theorem C2_foreign_object_deleted_or_overwritten :
    (∀ r ∈ (foreignConfigMap "c").ownerReferences,
      r.controls (sourceSecret [("caCert", certV1)]) = false) ∧
    configMapListerGet (envOf (sourceSecret [("caCert", certV1)]) [unlabelled "c"]
      [foreignConfigMap "c"]) "c" "akv2k8s-ca" = .ok (foreignConfigMap "c") ∧
    (CABundleInjector.syncHandlerChangedNamespace injector
      (envOf (sourceSecret [("caCert", certV1)]) [unlabelled "c"] [foreignConfigMap "c"])
      (apiOf (sourceSecret [("caCert", certV1)]) [foreignConfigMap "c"]) "c").ops
      = [Op.delete "c" "akv2k8s-ca"] ∧
    (CABundleInjector.syncHandlerChangedNamespace injector
      (envOf (sourceSecret [("caCert", certV1)]) [unlabelled "c"] [foreignConfigMap "c"])
      (apiOf (sourceSecret [("caCert", certV1)]) [foreignConfigMap "c"]) "c").api.configMaps
      = [] ∧
    (KeyVaultController.syncHandlerNewNamespace keyVault
      (envOf (sourceSecret [("ca.crt", certV1)]) [labelled "c" "enabled"] [foreignConfigMap "c"])
      (apiOf (sourceSecret [("ca.crt", certV1)]) [foreignConfigMap "c"]) "c").ops
      = [Op.update "c" (KeyVaultController.newConfigMap "akv2k8s-ca" "c"
          (sourceSecret [("ca.crt", certV1)]))] := by
  decide

/-- C2, amended: let the cached read of (target, name) give an object without a
controller owner reference to the secret. Then (1) syncHandlerSecret, configured with
that name and the name being the akv2k8s-ca it looks up, and (2) syncCABundleSecret
issue no request aimed at that object; (3) syncHandlerNewNamespace of cabundleinjector
issues no request and leaves the API server as it was; (4), (5) the label-changed
handlers issue nothing but a delete of that object, and issue nothing at all when the
label of the namespace has the value enabled. -/
theorem C2_conflict_safety_amended
    (c : CABundleInjector.Controller) (k : KeyVaultController.Controller)
    (env : Env) (api : ApiServer) (target name : String) (cm : ConfigMap) (secret : Secret)
    (hcm : configMapListerGet env target name = .ok cm)
    (hforeign : ∀ r ∈ cm.ownerReferences, r.controls secret = false) :
    (c.caBundleConfigMapName = name → name = "akv2k8s-ca" →
      ∀ key namespaceName secretName,
        SplitMetaNamespaceKey key = some (namespaceName, secretName) →
        secretListerGet env namespaceName secretName = .ok secret →
        ∀ op ∈ (CABundleInjector.syncHandlerSecret c env api key).ops,
          op.target ≠ (target, name)) ∧
    (k.caBundleConfigMapName = name →
      ∀ key namespaceName secretName,
        SplitMetaNamespaceKey key = some (namespaceName, secretName) →
        secretListerGet env namespaceName secretName = .ok secret →
        ∀ op ∈ (KeyVaultController.syncCABundleSecret k env api key).ops,
          op.target ≠ (target, name)) ∧
    (c.caBundleConfigMapName = name →
      (CABundleInjector.syncHandlerNewNamespace c env api target).ops = [] ∧
      (CABundleInjector.syncHandlerNewNamespace c env api target).api = api) ∧
    (c.caBundleConfigMapName = name →
      (∀ op ∈ (CABundleInjector.syncHandlerChangedNamespace c env api target).ops,
        op = Op.delete target name) ∧
      (∀ ns, namespaceListerGet env target = .ok ns →
        CABundleInjector.isNamespacesLabelled c ns = true →
        (CABundleInjector.syncHandlerChangedNamespace c env api target).ops = [] ∧
        (CABundleInjector.syncHandlerChangedNamespace c env api target).api = api)) ∧
    (k.caBundleConfigMapName = name →
      (∀ op ∈ (KeyVaultController.syncHandlerChangedNamespace k env api target).ops,
        op = Op.delete target name) ∧
      (∀ ns, namespaceListerGet env target = .ok ns →
        KeyVaultController.isNamespaceLabelled k ns = true →
        (KeyVaultController.syncHandlerChangedNamespace k env api target).ops = [] ∧
        (KeyVaultController.syncHandlerChangedNamespace k env api target).api = api)) := by
  have hnot : IsControlledBy cm secret = false := not_controlled_of_no_controller_ref hforeign
  refine ⟨?_, ?_, ?_, ?_, ?_⟩
  · intro hc hname key namespaceName secretName hkey hsecret op hop htarget
    subst hname
    cases hlist : namespaceListerList env [("azure-key-vault-env-injection", "enabled")] with
    | error err => simp [CABundleInjector.syncHandlerSecret, hkey, hsecret, hlist] at hop
    | ok namespaces =>
      have hmem : op ∈ (CABundleInjector.syncHandlerSecretLoop c env secret namespaces api).ops := by
        simp only [CABundleInjector.syncHandlerSecret, hkey, hsecret, hlist] at hop
        split at hop <;> exact hop
      obtain ⟨n, _, hcase⟩ :=
        CABundleInjector.syncHandlerSecretLoop_ops c env secret namespaces api op hmem
      rcases hcase with ⟨hop', err, herr⟩ | ⟨hop', cm', hget, hctl⟩
      · subst hop'
        simp [Op.target] at htarget
        rw [htarget.1, hcm] at herr
        cases herr
      · subst hop'
        simp [Op.target] at htarget
        rw [htarget.1, hcm] at hget
        cases hget
        rw [hnot] at hctl
        cases hctl
  · intro hk key namespaceName secretName hkey hsecret op hop htarget
    subst hk
    have hmem : ∃ namespaces,
        op ∈ (KeyVaultController.syncCABundleSecretLoop k env secret namespaces api).ops := by
      simp only [KeyVaultController.syncCABundleSecret, hkey, hsecret] at hop
      split at hop <;> exact ⟨_, hop⟩
    obtain ⟨namespaces, hmem⟩ := hmem
    obtain ⟨n, _, hcase⟩ :=
      KeyVaultController.syncCABundleSecretLoop_ops k env secret namespaces api op hmem
    rcases hcase with ⟨hop', err, herr⟩ | ⟨hop', cm', hget, hctl⟩
    · subst hop'
      simp [Op.target, KeyVaultController.newConfigMap] at htarget
      rw [htarget, hcm] at herr
      cases herr
    · subst hop'
      simp [Op.target, KeyVaultController.newConfigMap] at htarget
      rw [htarget, hcm] at hget
      cases hget
      rw [hnot] at hctl
      cases hctl
  · intro hc
    subst hc
    cases hns : namespaceListerGet env target <;>
      simp [CABundleInjector.syncHandlerNewNamespace, hns, hcm]
  · intro hc
    subst hc
    refine ⟨?_, ?_⟩
    · intro op hop
      cases hns : namespaceListerGet env target with
      | error err => simp [CABundleInjector.syncHandlerChangedNamespace, hns] at hop
      | ok ns =>
        by_cases hl : CABundleInjector.isNamespacesLabelled c ns = true <;>
          simp [CABundleInjector.syncHandlerChangedNamespace, hns, hcm, hl] at hop
        exact hop
    · intro ns hns hl
      simp [CABundleInjector.syncHandlerChangedNamespace, hns, hcm, hl]
  · intro hk
    subst hk
    refine ⟨?_, ?_⟩
    · intro op hop
      cases hns : namespaceListerGet env target with
      | error err => simp [KeyVaultController.syncHandlerChangedNamespace, hns] at hop
      | ok ns =>
        have hnm : ns.name = target := namespaceListerGet_ok hns
        by_cases hl : KeyVaultController.isNamespaceLabelled k ns = true <;>
          simp [KeyVaultController.syncHandlerChangedNamespace, hns, hnm, hcm, hl] at hop
        exact hop
    · intro ns hns hl
      have hnm : ns.name = target := namespaceListerGet_ok hns
      simp [KeyVaultController.syncHandlerChangedNamespace, hns, hnm, hcm, hl]

/-- C2, amended, at a concrete state: namespace c is labelled enabled and holds the
foreign object; the secret-changed, newly-labelled and label-changed handlers of
cabundleinjector leave it alone. -/
theorem C2_conflict_safety_amended_witness :
    (∀ op ∈ (CABundleInjector.syncHandlerSecret injector
        (envOf (sourceSecret [("caCert", certV1)]) [labelled "c" "enabled"]
          [foreignConfigMap "c"])
        (apiOf (sourceSecret [("caCert", certV1)]) [foreignConfigMap "c"])
        "akv2k8s/ca-bundle").ops, op.target ≠ ("c", "akv2k8s-ca")) ∧
    (CABundleInjector.syncHandlerNewNamespace injector
        (envOf (sourceSecret [("caCert", certV1)]) [labelled "c" "enabled"]
          [foreignConfigMap "c"])
        (apiOf (sourceSecret [("caCert", certV1)]) [foreignConfigMap "c"]) "c").ops = [] ∧
    (CABundleInjector.syncHandlerChangedNamespace injector
        (envOf (sourceSecret [("caCert", certV1)]) [labelled "c" "enabled"]
          [foreignConfigMap "c"])
        (apiOf (sourceSecret [("caCert", certV1)]) [foreignConfigMap "c"]) "c").ops = [] :=
  have h := C2_conflict_safety_amended injector keyVault
    (envOf (sourceSecret [("caCert", certV1)]) [labelled "c" "enabled"] [foreignConfigMap "c"])
    (apiOf (sourceSecret [("caCert", certV1)]) [foreignConfigMap "c"])
    "c" "akv2k8s-ca" (foreignConfigMap "c") (sourceSecret [("caCert", certV1)])
    (by decide) (by decide)
  ⟨h.1 rfl rfl "akv2k8s/ca-bundle" "akv2k8s" "ca-bundle" (by decide) (by decide),
   (h.2.2.1 rfl).1,
   ((h.2.2.2.1 rfl).2 (labelled "c" "enabled") (by decide) (by decide)).1⟩

/-- C3, evaluated. The controller is configured with the configuration-object name
my-ca-bundle; namespace c is opt-in and holds an object of that name without any owner
reference. syncHandlerSecret looks up the literal name akv2k8s-ca, finds nothing, sends
a create for my-ca-bundle to namespace c and returns the AlreadyExists error of the API
server, not the conflict error that names the object. On the same state
syncCABundleSecret, which looks up the configured name, sends nothing and returns the
conflict error. -/
theorem C3_conflict_missed_under_configured_name :
    configMapListerGet
        (envOf (sourceSecret [("caCert", certV1)]) [labelled "c" "enabled"]
          [{ foreignConfigMap "c" with name := "my-ca-bundle" }])
        "c" "my-ca-bundle"
      = .ok { foreignConfigMap "c" with name := "my-ca-bundle" } ∧
    IsControlledBy { foreignConfigMap "c" with name := "my-ca-bundle" }
      (sourceSecret [("caCert", certV1)]) = false ∧
    CABundleInjector.syncHandlerSecret
        { injector with caBundleConfigMapName := "my-ca-bundle" }
        (envOf (sourceSecret [("caCert", certV1)]) [labelled "c" "enabled"]
          [{ foreignConfigMap "c" with name := "my-ca-bundle" }])
        (apiOf (sourceSecret [("caCert", certV1)])
          [{ foreignConfigMap "c" with name := "my-ca-bundle" }])
        "akv2k8s/ca-bundle"
      = { api := apiOf (sourceSecret [("caCert", certV1)])
            [{ foreignConfigMap "c" with name := "my-ca-bundle" }]
          ops := [Op.create "c" (CABundleInjector.newConfigMap "my-ca-bundle" "c"
            (sourceSecret [("caCert", certV1)]))]
          events := []
          ret := some (GoError.statusAlreadyExists "configmaps" "my-ca-bundle") } ∧
    (GoError.statusAlreadyExists "configmaps" "my-ca-bundle").Error
      = "configmaps \"my-ca-bundle\" already exists" ∧
    (KeyVaultController.syncCABundleSecret
        { keyVault with caBundleConfigMapName := "my-ca-bundle" }
        (envOf (sourceSecret [("caCert", certV1)]) [labelled "c" "enabled"]
          [{ foreignConfigMap "c" with name := "my-ca-bundle" }])
        (apiOf (sourceSecret [("caCert", certV1)])
          [{ foreignConfigMap "c" with name := "my-ca-bundle" }])
        "akv2k8s/ca-bundle").ops = [] ∧
    (KeyVaultController.syncCABundleSecret
        { keyVault with caBundleConfigMapName := "my-ca-bundle" }
        (envOf (sourceSecret [("caCert", certV1)]) [labelled "c" "enabled"]
          [{ foreignConfigMap "c" with name := "my-ca-bundle" }])
        (apiOf (sourceSecret [("caCert", certV1)])
          [{ foreignConfigMap "c" with name := "my-ca-bundle" }])
        "akv2k8s/ca-bundle").ret
      = some (GoError.errorf
          "Resource 'my-ca-bundle' already exists and is not managed by Azure Key Vault Controller") := by
  decide

/-- C4, counterexample (Scenario D): namespace c holds a foreign object named
akv2k8s-ca and is labelled enabled. Neither the newly-labelled handler nor the
label-changed handler returns an error: both return nil. -/
theorem C4_scenario_D_returns_nil :
    configMapListerGet
      (envOf (sourceSecret [("caCert", certV1)]) [labelled "c" "enabled"] [foreignConfigMap "c"])
      "c" "akv2k8s-ca" = .ok (foreignConfigMap "c") ∧
    (∀ r ∈ (foreignConfigMap "c").ownerReferences,
      r.controls (sourceSecret [("caCert", certV1)]) = false) ∧
    (CABundleInjector.syncHandlerNewNamespace injector
      (envOf (sourceSecret [("caCert", certV1)]) [labelled "c" "enabled"] [foreignConfigMap "c"])
      (apiOf (sourceSecret [("caCert", certV1)]) [foreignConfigMap "c"]) "c").ret = none ∧
    (CABundleInjector.syncHandlerChangedNamespace injector
      (envOf (sourceSecret [("caCert", certV1)]) [labelled "c" "enabled"] [foreignConfigMap "c"])
      (apiOf (sourceSecret [("caCert", certV1)]) [foreignConfigMap "c"]) "c").ret = none := by
  decide

/-- C4, amended: when the namespace of the key exists with the opt-in label set to
enabled and the cached read finds an object under the configured name (a foreign one
in particular), the newly-labelled handler and the label-changed handler both return
nil, issue no request, record no event and leave the API server, hence the foreign
object, as it was. -/
theorem C4_scenario_D_amended
    (c : CABundleInjector.Controller) (env : Env) (api : ApiServer) (key : String)
    (ns : Namespace) (cm : ConfigMap)
    (hns : namespaceListerGet env key = .ok ns)
    (hlabel : mapIndex "" ns.labels c.labelName = "enabled")
    (hcm : configMapListerGet env key c.caBundleConfigMapName = .ok cm) :
    CABundleInjector.syncHandlerNewNamespace c env api key
      = { api := api, ops := [], events := [], ret := none } ∧
    CABundleInjector.syncHandlerChangedNamespace c env api key
      = { api := api, ops := [], events := [], ret := none } := by
  constructor
  · simp [CABundleInjector.syncHandlerNewNamespace, hns, hcm]
  · simp [CABundleInjector.syncHandlerChangedNamespace, CABundleInjector.isNamespacesLabelled,
      hns, hcm, hlabel]

/-- C4, amended, on Scenario D itself. -/
theorem C4_scenario_D_amended_witness :
    CABundleInjector.syncHandlerNewNamespace injector
      (envOf (sourceSecret [("caCert", certV1)]) [labelled "c" "enabled"] [foreignConfigMap "c"])
      (apiOf (sourceSecret [("caCert", certV1)]) [foreignConfigMap "c"]) "c"
      = { api := apiOf (sourceSecret [("caCert", certV1)]) [foreignConfigMap "c"],
          ops := [], events := [], ret := none } ∧
    CABundleInjector.syncHandlerChangedNamespace injector
      (envOf (sourceSecret [("caCert", certV1)]) [labelled "c" "enabled"] [foreignConfigMap "c"])
      (apiOf (sourceSecret [("caCert", certV1)]) [foreignConfigMap "c"]) "c"
      = { api := apiOf (sourceSecret [("caCert", certV1)]) [foreignConfigMap "c"],
          ops := [], events := [], ret := none } :=
  C4_scenario_D_amended injector
    (envOf (sourceSecret [("caCert", certV1)]) [labelled "c" "enabled"] [foreignConfigMap "c"])
    (apiOf (sourceSecret [("caCert", certV1)]) [foreignConfigMap "c"]) "c"
    (labelled "c" "enabled") (foreignConfigMap "c") (by decide) (by decide) (by decide)

/-- C5, evaluated. (1) Converged state: the secret holds CERT_V1, namespace a is opt-in
and already holds the object built from the secret. The first pass of
syncHandlerSecret succeeds and leaves the API server as it was, yet the second pass
issues an update again, because the payload is compared with StringData, which the
served secret does not have. syncCABundleSecret does the same. (2) Opt-in namespaces a
and b without object: the first pass creates the object of a and returns, the second
pass updates a and creates the object of b, so the objects after the second pass are
not those after the first. -/
theorem C5_second_pass_issues_writes :
    (twice (CABundleInjector.syncHandlerSecret injector)
      (envOf (sourceSecret [("caCert", certV1)]) [labelled "a" "enabled"]
        [CABundleInjector.newConfigMap "akv2k8s-ca" "a" (sourceSecret [("caCert", certV1)])])
      (apiOf (sourceSecret [("caCert", certV1)])
        [CABundleInjector.newConfigMap "akv2k8s-ca" "a" (sourceSecret [("caCert", certV1)])])
      "akv2k8s/ca-bundle").1.ret = none ∧
    (twice (CABundleInjector.syncHandlerSecret injector)
      (envOf (sourceSecret [("caCert", certV1)]) [labelled "a" "enabled"]
        [CABundleInjector.newConfigMap "akv2k8s-ca" "a" (sourceSecret [("caCert", certV1)])])
      (apiOf (sourceSecret [("caCert", certV1)])
        [CABundleInjector.newConfigMap "akv2k8s-ca" "a" (sourceSecret [("caCert", certV1)])])
      "akv2k8s/ca-bundle").1.api
      = apiOf (sourceSecret [("caCert", certV1)])
        [CABundleInjector.newConfigMap "akv2k8s-ca" "a" (sourceSecret [("caCert", certV1)])] ∧
    (twice (CABundleInjector.syncHandlerSecret injector)
      (envOf (sourceSecret [("caCert", certV1)]) [labelled "a" "enabled"]
        [CABundleInjector.newConfigMap "akv2k8s-ca" "a" (sourceSecret [("caCert", certV1)])])
      (apiOf (sourceSecret [("caCert", certV1)])
        [CABundleInjector.newConfigMap "akv2k8s-ca" "a" (sourceSecret [("caCert", certV1)])])
      "akv2k8s/ca-bundle").2.ops
      = [Op.update "a"
          (CABundleInjector.newConfigMap "akv2k8s-ca" "a" (sourceSecret [("caCert", certV1)]))] ∧
    (twice (KeyVaultController.syncCABundleSecret keyVault)
      (envOf (sourceSecret [("ca.crt", certV1)]) [labelled "a" "enabled"]
        [KeyVaultController.newConfigMap "akv2k8s-ca" "a" (sourceSecret [("ca.crt", certV1)])])
      (apiOf (sourceSecret [("ca.crt", certV1)])
        [KeyVaultController.newConfigMap "akv2k8s-ca" "a" (sourceSecret [("ca.crt", certV1)])])
      "akv2k8s/ca-bundle").2.ops
      = [Op.update "a"
          (KeyVaultController.newConfigMap "akv2k8s-ca" "a" (sourceSecret [("ca.crt", certV1)]))] ∧
    (twice (CABundleInjector.syncHandlerSecret injector)
      (envOf (sourceSecret [("caCert", certV1)]) [labelled "a" "enabled", labelled "b" "enabled"] [])
      (apiOf (sourceSecret [("caCert", certV1)]) [])
      "akv2k8s/ca-bundle").1.ops
      = [Op.create "a"
          (CABundleInjector.newConfigMap "akv2k8s-ca" "a" (sourceSecret [("caCert", certV1)]))] ∧
    (twice (CABundleInjector.syncHandlerSecret injector)
      (envOf (sourceSecret [("caCert", certV1)]) [labelled "a" "enabled", labelled "b" "enabled"] [])
      (apiOf (sourceSecret [("caCert", certV1)]) [])
      "akv2k8s/ca-bundle").2.ops
      = [Op.update "a"
          (CABundleInjector.newConfigMap "akv2k8s-ca" "a" (sourceSecret [("caCert", certV1)])),
         Op.create "b"
          (CABundleInjector.newConfigMap "akv2k8s-ca" "b" (sourceSecret [("caCert", certV1)]))] ∧
    (twice (CABundleInjector.syncHandlerSecret injector)
      (envOf (sourceSecret [("caCert", certV1)]) [labelled "a" "enabled", labelled "b" "enabled"] [])
      (apiOf (sourceSecret [("caCert", certV1)]) [])
      "akv2k8s/ca-bundle").1.api.configMaps
      ≠ (twice (CABundleInjector.syncHandlerSecret injector)
      (envOf (sourceSecret [("caCert", certV1)]) [labelled "a" "enabled", labelled "b" "enabled"] [])
      (apiOf (sourceSecret [("caCert", certV1)]) [])
      "akv2k8s/ca-bundle").2.api.configMaps := by
  decide

/-- C6, evaluated. The secret holds CERT_V2 under caCert and, as served, no StringData.
Namespace a is opt-in and holds the object built from the secret while it had no
caCert field: it is controlled by the secret and its payload is empty. The pass of
syncHandlerSecret visits the namespace, returns nil and issues no request, and the
payload of the object is still empty afterwards, not CERT_V2. With the payload
CERT_V1 in place of the empty one (Scenario B) the same pass does bring it to
CERT_V2. -/
theorem C6_empty_payload_never_refreshed :
    IsControlledBy (CABundleInjector.newConfigMap "akv2k8s-ca" "a" (sourceSecret []))
      (sourceSecret [("caCert", certV2)]) = true ∧
    CABundleInjector.syncHandlerSecret injector
      (envOf (sourceSecret [("caCert", certV2)]) [labelled "a" "enabled"]
        [CABundleInjector.newConfigMap "akv2k8s-ca" "a" (sourceSecret [])])
      (apiOf (sourceSecret [("caCert", certV2)])
        [CABundleInjector.newConfigMap "akv2k8s-ca" "a" (sourceSecret [])])
      "akv2k8s/ca-bundle"
      = { api := apiOf (sourceSecret [("caCert", certV2)])
            [CABundleInjector.newConfigMap "akv2k8s-ca" "a" (sourceSecret [])],
          ops := [], events := [], ret := none } ∧
    (CABundleInjector.syncHandlerSecretLoop injector
      (envOf (sourceSecret [("caCert", certV2)]) [labelled "a" "enabled"]
        [CABundleInjector.newConfigMap "akv2k8s-ca" "a" (sourceSecret [])])
      (sourceSecret [("caCert", certV2)]) [labelled "a" "enabled"]
      (apiOf (sourceSecret [("caCert", certV2)])
        [CABundleInjector.newConfigMap "akv2k8s-ca" "a" (sourceSecret [])])).returned = none ∧
    mapIndex [] (CABundleInjector.newConfigMap "akv2k8s-ca" "a" (sourceSecret [])).data "caCert"
      ≠ certV2 ∧
    (CABundleInjector.syncHandlerSecret injector
      (envOf (sourceSecret [("caCert", certV2)]) [labelled "a" "enabled"]
        [CABundleInjector.newConfigMap "akv2k8s-ca" "a" (sourceSecret [("caCert", certV1)])])
      (apiOf (sourceSecret [("caCert", certV2)])
        [CABundleInjector.newConfigMap "akv2k8s-ca" "a" (sourceSecret [("caCert", certV1)])])
      "akv2k8s/ca-bundle").api.configMaps
      = [CABundleInjector.newConfigMap "akv2k8s-ca" "a" (sourceSecret [("caCert", certV2)])] := by
  decide

/-- C7, evaluated. Namespace a exists without the opt-in label and holds no derived
object. syncHandlerChangedNamespace returns nil after creating the object in a: a
derived object now exists where the label does not opt in. -/
theorem C7_unlabelled_namespace_gets_object :
    CABundleInjector.isNamespacesLabelled injector (unlabelled "a") = false ∧
    CABundleInjector.syncHandlerChangedNamespace injector
      (envOf (sourceSecret [("caCert", certV1)]) [unlabelled "a"] [])
      (apiOf (sourceSecret [("caCert", certV1)]) []) "a"
      = { api := apiOf (sourceSecret [("caCert", certV1)])
            [CABundleInjector.newConfigMap "akv2k8s-ca" "a" (sourceSecret [("caCert", certV1)])],
          ops := [Op.create "a"
            (CABundleInjector.newConfigMap "akv2k8s-ca" "a" (sourceSecret [("caCert", certV1)]))],
          events := [], ret := none } := by
  decide

/-- C8: let the namespace of the key exist with the opt-in label set to enabled. (1) If
the cached read of the derived object reports not found and the direct read of the
Source Secret gives a secret, syncHandlerChangedNamespace issues exactly one request,
the create of newConfigMap (configured name, that namespace, that secret), and returns
what the create returns; when the API server accepts the create (no failure, no
object of that name stored) the handler returns nil and the object is stored. (2) If
the cached read finds the derived object, the handler issues no request, leaves the
API server as it was and returns nil. -/
theorem C8_changed_namespace_opt_in
    (c : CABundleInjector.Controller) (env : Env) (api : ApiServer) (key : String)
    (ns : Namespace)
    (hns : namespaceListerGet env key = .ok ns)
    (hlabel : mapIndex "" ns.labels c.labelName = "enabled") :
    (∀ (err : GoError) (secret : Secret),
      configMapListerGet env key c.caBundleConfigMapName = .error err →
      IsNotFound (some err) = true →
      secretsGet env api c.caBundleSecretNamespaceName c.caBundleSecretName = .ok secret →
      (CABundleInjector.syncHandlerChangedNamespace c env api key).ops
        = [Op.create key (CABundleInjector.newConfigMap c.caBundleConfigMapName key secret)] ∧
      (CABundleInjector.syncHandlerChangedNamespace c env api key).ret
        = (configMapsCreate env api key
            (CABundleInjector.newConfigMap c.caBundleConfigMapName key secret)).2 ∧
      (CABundleInjector.syncHandlerChangedNamespace c env api key).api
        = (configMapsCreate env api key
            (CABundleInjector.newConfigMap c.caBundleConfigMapName key secret)).1 ∧
      (env.faults.configMapsCreate key c.caBundleConfigMapName = none →
        api.hasConfigMap key c.caBundleConfigMapName = false →
        (CABundleInjector.syncHandlerChangedNamespace c env api key).ret = none ∧
        (CABundleInjector.syncHandlerChangedNamespace c env api key).api.configMaps
          = api.configMaps ++
            [CABundleInjector.newConfigMap c.caBundleConfigMapName key secret])) ∧
    (∀ cm : ConfigMap,
      configMapListerGet env key c.caBundleConfigMapName = .ok cm →
      CABundleInjector.syncHandlerChangedNamespace c env api key
        = { api := api, ops := [], events := [], ret := none }) := by
  have hname : ns.name = key := namespaceListerGet_ok hns
  refine ⟨?_, ?_⟩
  · intro err secret hcm hnf hsecret
    have hrun : CABundleInjector.syncHandlerChangedNamespace c env api key
        = { api := (configMapsCreate env api key
              (CABundleInjector.newConfigMap c.caBundleConfigMapName key secret)).1
            ops := [Op.create key
              (CABundleInjector.newConfigMap c.caBundleConfigMapName key secret)]
            events := []
            ret := (configMapsCreate env api key
              (CABundleInjector.newConfigMap c.caBundleConfigMapName key secret)).2 } := by
      simp [CABundleInjector.syncHandlerChangedNamespace, hns, hcm, hnf, hsecret, hname]
    rw [hrun]
    refine ⟨rfl, rfl, rfl, ?_⟩
    intro hfault hstored
    simp [configMapsCreate, CABundleInjector.newConfigMap, hfault, hstored]
  · intro cm hcm
    simp [CABundleInjector.syncHandlerChangedNamespace, CABundleInjector.isNamespacesLabelled,
      hns, hcm, hlabel]

/-- C8 at a concrete state: namespace a is labelled enabled and holds no object; the
handler creates the object built from the secret read from the API server. -/
theorem C8_changed_namespace_opt_in_witness :
    (CABundleInjector.syncHandlerChangedNamespace injector
      (envOf (sourceSecret [("caCert", certV1)]) [labelled "a" "enabled"] [])
      (apiOf (sourceSecret [("caCert", certV1)]) []) "a").ops
      = [Op.create "a" (CABundleInjector.newConfigMap injector.caBundleConfigMapName "a"
          (sourceSecret [("caCert", certV1)]))] ∧
    (CABundleInjector.syncHandlerChangedNamespace injector
      (envOf (sourceSecret [("caCert", certV1)]) [labelled "a" "enabled"] [])
      (apiOf (sourceSecret [("caCert", certV1)]) []) "a").ret = none :=
  have h := (C8_changed_namespace_opt_in injector
    (envOf (sourceSecret [("caCert", certV1)]) [labelled "a" "enabled"] [])
    (apiOf (sourceSecret [("caCert", certV1)]) []) "a" (labelled "a" "enabled")
    (by decide) (by decide)).1
    (GoError.statusNotFound "configmap" "akv2k8s-ca") (sourceSecret [("caCert", certV1)])
    (by decide) (by decide) (by decide)
  ⟨h.1, (h.2.2.2 (by decide) (by decide)).1⟩

/-- C9: let the namespace of the key exist. (1) If the cached read of the derived
object reports not found and the direct read of the Source Secret from the API server
gives a secret, syncHandlerNewNamespace issues exactly one request, the create of
newConfigMap (configured name, that namespace, that secret), and returns what the
create returns; when the API server accepts the create the handler returns nil and
the object is stored. (2) If the cached read finds the object, the handler issues no
request, leaves the API server as it was and returns nil. (3) A cached read error
other than not found is returned as it is, with no request issued. (4) The secrets in
the informer cache play no part: the outcome is the same whatever they are. -/
theorem C9_new_namespace_handler
    (c : CABundleInjector.Controller) (env : Env) (api : ApiServer) (key : String)
    (ns : Namespace)
    (hns : namespaceListerGet env key = .ok ns) :
    (∀ (err : GoError) (secret : Secret),
      configMapListerGet env key c.caBundleConfigMapName = .error err →
      IsNotFound (some err) = true →
      secretsGet env api c.caBundleSecretNamespaceName c.caBundleSecretName = .ok secret →
      (CABundleInjector.syncHandlerNewNamespace c env api key).ops
        = [Op.create key (CABundleInjector.newConfigMap c.caBundleConfigMapName key secret)] ∧
      (CABundleInjector.syncHandlerNewNamespace c env api key).ret
        = (configMapsCreate env api key
            (CABundleInjector.newConfigMap c.caBundleConfigMapName key secret)).2 ∧
      (CABundleInjector.syncHandlerNewNamespace c env api key).api
        = (configMapsCreate env api key
            (CABundleInjector.newConfigMap c.caBundleConfigMapName key secret)).1 ∧
      (env.faults.configMapsCreate key c.caBundleConfigMapName = none →
        api.hasConfigMap key c.caBundleConfigMapName = false →
        (CABundleInjector.syncHandlerNewNamespace c env api key).ret = none ∧
        (CABundleInjector.syncHandlerNewNamespace c env api key).api.configMaps
          = api.configMaps ++
            [CABundleInjector.newConfigMap c.caBundleConfigMapName key secret])) ∧
    (∀ cm : ConfigMap,
      configMapListerGet env key c.caBundleConfigMapName = .ok cm →
      CABundleInjector.syncHandlerNewNamespace c env api key
        = { api := api, ops := [], events := [], ret := none }) ∧
    (∀ err : GoError,
      configMapListerGet env key c.caBundleConfigMapName = .error err →
      IsNotFound (some err) = false →
      CABundleInjector.syncHandlerNewNamespace c env api key
        = { api := api, ops := [], events := [], ret := some err }) ∧
    (∀ cached : List Secret,
      CABundleInjector.syncHandlerNewNamespace c
        { env with informers := { env.informers with secrets := cached } } api key
        = CABundleInjector.syncHandlerNewNamespace c env api key) := by
  have hname : ns.name = key := namespaceListerGet_ok hns
  refine ⟨?_, ?_, ?_, ?_⟩
  · intro err secret hcm hnf hsecret
    have hrun : CABundleInjector.syncHandlerNewNamespace c env api key
        = { api := (configMapsCreate env api key
              (CABundleInjector.newConfigMap c.caBundleConfigMapName key secret)).1
            ops := [Op.create key
              (CABundleInjector.newConfigMap c.caBundleConfigMapName key secret)]
            events := []
            ret := (configMapsCreate env api key
              (CABundleInjector.newConfigMap c.caBundleConfigMapName key secret)).2 } := by
      simp [CABundleInjector.syncHandlerNewNamespace, hns, hcm, hnf, hsecret, hname]
    rw [hrun]
    refine ⟨rfl, rfl, rfl, ?_⟩
    intro hfault hstored
    simp [configMapsCreate, CABundleInjector.newConfigMap, hfault, hstored]
  · intro cm hcm
    simp [CABundleInjector.syncHandlerNewNamespace, hns, hcm]
  · intro err hcm hnf
    simp [CABundleInjector.syncHandlerNewNamespace, hns, hcm, hnf]
  · intro cached
    rfl

/-- C9 at a concrete state: the informer cache still holds the secret with CERT_V1,
the API server already serves CERT_V2, namespace a holds no object; the object created
carries CERT_V2. -/
theorem C9_new_namespace_handler_witness :
    (CABundleInjector.syncHandlerNewNamespace injector
      (envOf (sourceSecret [("caCert", certV1)]) [labelled "a" "enabled"] [])
      (apiOf (sourceSecret [("caCert", certV2)]) []) "a").ops
      = [Op.create "a" (CABundleInjector.newConfigMap injector.caBundleConfigMapName "a"
          (sourceSecret [("caCert", certV2)]))] ∧
    (CABundleInjector.syncHandlerNewNamespace injector
      (envOf (sourceSecret [("caCert", certV1)]) [labelled "a" "enabled"] [])
      (apiOf (sourceSecret [("caCert", certV2)]) []) "a").ret = none :=
  have h := (C9_new_namespace_handler injector
    (envOf (sourceSecret [("caCert", certV1)]) [labelled "a" "enabled"] [])
    (apiOf (sourceSecret [("caCert", certV2)]) []) "a" (labelled "a" "enabled")
    (by decide)).1
    (GoError.statusNotFound "configmap" "akv2k8s-ca") (sourceSecret [("caCert", certV2)])
    (by decide) (by decide) (by decide)
  ⟨h.1, (h.2.2.2 (by decide) (by decide)).1⟩

/-- C10, evaluated. Namespace b is added with the opt-in label set to disabled. The
AddFunc of the namespace informer puts its key on the newly-labelled queue, and
syncHandlerNewNamespace on that key creates the derived object in b, although the
label value is not enabled. -/
theorem C10_add_path_creates_for_other_label_value :
    CABundleInjector.isNamespacesLabelled injector (labelled "b" "disabled") = false ∧
    (CABundleInjector.namespaceAddFunc injector
      { secretWorkqueue := [], newNamespaceWorkqueue := [], changedNamespaceWorkqueue := [] }
      (labelled "b" "disabled")).newNamespaceWorkqueue = ["b"] ∧
    CABundleInjector.syncHandlerNewNamespace injector
      (envOf (sourceSecret [("caCert", certV1)]) [labelled "b" "disabled"] [])
      (apiOf (sourceSecret [("caCert", certV1)]) []) "b"
      = { api := apiOf (sourceSecret [("caCert", certV1)])
            [CABundleInjector.newConfigMap "akv2k8s-ca" "b" (sourceSecret [("caCert", certV1)])],
          ops := [Op.create "b"
            (CABundleInjector.newConfigMap "akv2k8s-ca" "b" (sourceSecret [("caCert", certV1)]))],
          events := [], ret := none } := by
  decide

/-- C11, evaluated. The controller is configured with the configuration-object name
my-ca-bundle; namespace a is opt-in, holds no object of that name, and holds an object
akv2k8s-ca that the secret controls (left from a run under the default name).
syncHandlerSecret looks up the literal name akv2k8s-ca, finds that object, and instead
of creating my-ca-bundle sends an update for it, which the API server answers with not
found; when the payload of akv2k8s-ca is empty it sends nothing at all and returns nil.
No create is issued in either case. On the same state syncCABundleSecret, which looks
up the configured name, creates the object and returns nil. -/
theorem C11_absent_object_not_created_under_configured_name :
    configMapListerGet
        (envOf (sourceSecret [("caCert", certV1)]) [labelled "a" "enabled"]
          [CABundleInjector.newConfigMap "akv2k8s-ca" "a" (sourceSecret [("caCert", certV1)])])
        "a" "my-ca-bundle"
      = .error (GoError.statusNotFound "configmap" "my-ca-bundle") ∧
    CABundleInjector.syncHandlerSecret
        { injector with caBundleConfigMapName := "my-ca-bundle" }
        (envOf (sourceSecret [("caCert", certV1)]) [labelled "a" "enabled"]
          [CABundleInjector.newConfigMap "akv2k8s-ca" "a" (sourceSecret [("caCert", certV1)])])
        (apiOf (sourceSecret [("caCert", certV1)])
          [CABundleInjector.newConfigMap "akv2k8s-ca" "a" (sourceSecret [("caCert", certV1)])])
        "akv2k8s/ca-bundle"
      = { api := apiOf (sourceSecret [("caCert", certV1)])
            [CABundleInjector.newConfigMap "akv2k8s-ca" "a" (sourceSecret [("caCert", certV1)])]
          ops := [Op.update "a" (CABundleInjector.newConfigMap "my-ca-bundle" "a"
            (sourceSecret [("caCert", certV1)]))]
          events := []
          ret := some (GoError.statusNotFound "configmaps" "my-ca-bundle") } ∧
    CABundleInjector.syncHandlerSecret
        { injector with caBundleConfigMapName := "my-ca-bundle" }
        (envOf (sourceSecret [("caCert", certV1)]) [labelled "a" "enabled"]
          [CABundleInjector.newConfigMap "akv2k8s-ca" "a" (sourceSecret [])])
        (apiOf (sourceSecret [("caCert", certV1)])
          [CABundleInjector.newConfigMap "akv2k8s-ca" "a" (sourceSecret [])])
        "akv2k8s/ca-bundle"
      = { api := apiOf (sourceSecret [("caCert", certV1)])
            [CABundleInjector.newConfigMap "akv2k8s-ca" "a" (sourceSecret [])]
          ops := [], events := [], ret := none } ∧
    (KeyVaultController.syncCABundleSecret
        { keyVault with caBundleConfigMapName := "my-ca-bundle" }
        (envOf (sourceSecret [("ca.crt", certV1)]) [labelled "a" "enabled"]
          [CABundleInjector.newConfigMap "akv2k8s-ca" "a" (sourceSecret [("ca.crt", certV1)])])
        (apiOf (sourceSecret [("ca.crt", certV1)])
          [CABundleInjector.newConfigMap "akv2k8s-ca" "a" (sourceSecret [("ca.crt", certV1)])])
        "akv2k8s/ca-bundle").ops
      = [Op.create "a" (KeyVaultController.newConfigMap "my-ca-bundle" "a"
          (sourceSecret [("ca.crt", certV1)]))] ∧
    (KeyVaultController.syncCABundleSecret
        { keyVault with caBundleConfigMapName := "my-ca-bundle" }
        (envOf (sourceSecret [("ca.crt", certV1)]) [labelled "a" "enabled"]
          [CABundleInjector.newConfigMap "akv2k8s-ca" "a" (sourceSecret [("ca.crt", certV1)])])
        (apiOf (sourceSecret [("ca.crt", certV1)])
          [CABundleInjector.newConfigMap "akv2k8s-ca" "a" (sourceSecret [("ca.crt", certV1)])])
        "akv2k8s/ca-bundle").ret = none := by
  decide

/-- C12: when the key splits into a namespace and a name and the cached read of that
secret reports not found, syncHandlerSecret and syncCABundleSecret return nil, issue no
request, record no event and leave the API server as it was, whatever the namespace
lister would answer (it is not consulted, and may be failing); processNextWorkItem on
the secret queue then calls Forget and Done on the key and never AddRateLimited. -/
theorem C12_missing_secret_is_terminal
    (c : CABundleInjector.Controller) (k : KeyVaultController.Controller)
    (env : Env) (api : ApiServer) (key namespaceName name : String) (err : GoError)
    (hkey : SplitMetaNamespaceKey key = some (namespaceName, name))
    (hget : secretListerGet env namespaceName name = .error err)
    (hnf : IsNotFound (some err) = true) :
    CABundleInjector.syncHandlerSecret c env api key
      = { api := api, ops := [], events := [], ret := none } ∧
    KeyVaultController.syncCABundleSecret k env api key
      = { api := api, ops := [], events := [], ret := none } ∧
    CABundleInjector.processNextWorkItem c env api (.key key) false
        CABundleInjector.workQueueTypeSecret
      = { result := true
          queueCalls := [CABundleInjector.QueueCall.forget (.key key),
                         CABundleInjector.QueueCall.done (.key key)]
          handlerCalls := [CABundleInjector.HandlerCall.syncHandlerSecret key]
          api := api, ops := [] } := by
  have h1 : CABundleInjector.syncHandlerSecret c env api key
      = { api := api, ops := [], events := [], ret := none } := by
    simp [CABundleInjector.syncHandlerSecret, hkey, hget, hnf]
  refine ⟨h1, ?_, ?_⟩
  · simp [KeyVaultController.syncCABundleSecret, hkey, hget, hnf]
  · simp [CABundleInjector.processNextWorkItem, CABundleInjector.dispatchHandler, h1]

/-- C12 at a concrete state: the cache holds no secret, and the namespace lister is
failing; the key akv2k8s/ca-bundle is forgotten. -/
theorem C12_missing_secret_is_terminal_witness :
    CABundleInjector.processNextWorkItem injector
        { faults := { noFaults with namespaceListerList := some (GoError.other "list failed") }
          informers := { secrets := [], namespaces := [labelled "a" "enabled"], configMaps := [] } }
        { secrets := [], configMaps := [] } (.key "akv2k8s/ca-bundle") false
        CABundleInjector.workQueueTypeSecret
      = { result := true
          queueCalls := [CABundleInjector.QueueCall.forget (.key "akv2k8s/ca-bundle"),
                         CABundleInjector.QueueCall.done (.key "akv2k8s/ca-bundle")]
          handlerCalls := [CABundleInjector.HandlerCall.syncHandlerSecret "akv2k8s/ca-bundle"]
          api := { secrets := [], configMaps := [] }, ops := [] } :=
  (C12_missing_secret_is_terminal injector keyVault
    { faults := { noFaults with namespaceListerList := some (GoError.other "list failed") }
      informers := { secrets := [], namespaces := [labelled "a" "enabled"], configMaps := [] } }
    { secrets := [], configMaps := [] } "akv2k8s/ca-bundle" "akv2k8s" "ca-bundle"
    (GoError.statusNotFound "secret" "ca-bundle") (by decide) (by decide) (by decide)).2.2

/-- C13, evaluated. No namespace named gone is in the cache. syncHandlerNewNamespace
and syncHandlerChangedNamespace both return the not-found error of the namespace
lister instead of nil, and processNextWorkItem then calls AddRateLimited on the key,
not Forget: the key of a namespace that no longer exists is retried. -/
theorem C13_missing_namespace_is_requeued :
    CABundleInjector.syncHandlerNewNamespace injector
        (envOf (sourceSecret [("caCert", certV1)]) [] [])
        (apiOf (sourceSecret [("caCert", certV1)]) []) "gone"
      = { api := apiOf (sourceSecret [("caCert", certV1)]) [], ops := [], events := [],
          ret := some (GoError.statusNotFound "namespace" "gone") } ∧
    CABundleInjector.syncHandlerChangedNamespace injector
        (envOf (sourceSecret [("caCert", certV1)]) [] [])
        (apiOf (sourceSecret [("caCert", certV1)]) []) "gone"
      = { api := apiOf (sourceSecret [("caCert", certV1)]) [], ops := [], events := [],
          ret := some (GoError.statusNotFound "namespace" "gone") } ∧
    (CABundleInjector.processNextWorkItem injector
        (envOf (sourceSecret [("caCert", certV1)]) [] [])
        (apiOf (sourceSecret [("caCert", certV1)]) []) (.key "gone") false
        CABundleInjector.workQueueTypeNewNamespace).queueCalls
      = [CABundleInjector.QueueCall.addRateLimited (.key "gone"),
         CABundleInjector.QueueCall.done (.key "gone")] ∧
    (CABundleInjector.processNextWorkItem injector
        (envOf (sourceSecret [("caCert", certV1)]) [] [])
        (apiOf (sourceSecret [("caCert", certV1)]) []) (.key "gone") false
        CABundleInjector.workQueueTypeChangedNamespace).queueCalls
      = [CABundleInjector.QueueCall.addRateLimited (.key "gone"),
         CABundleInjector.QueueCall.done (.key "gone")] := by
  decide

/-- C14, evaluated. The listing of the opt-in namespaces fails. syncHandlerSecret
returns that error; syncCABundleSecret, which never tests the error of
getAllAkvsLabelledNamespaces, returns nil and records the Synced event. -/
theorem C14_list_error_dropped :
    (CABundleInjector.syncHandlerSecret injector
        { faults := { noFaults with namespaceListerList := some (GoError.other "list failed") }
          informers := { secrets := [sourceSecret [("ca.crt", certV1)]],
                         namespaces := [labelled "a" "enabled"], configMaps := [] } }
        (apiOf (sourceSecret [("ca.crt", certV1)]) []) "akv2k8s/ca-bundle").ret
      = some (GoError.other "list failed") ∧
    KeyVaultController.syncCABundleSecret keyVault
        { faults := { noFaults with namespaceListerList := some (GoError.other "list failed") }
          informers := { secrets := [sourceSecret [("ca.crt", certV1)]],
                         namespaces := [labelled "a" "enabled"], configMaps := [] } }
        (apiOf (sourceSecret [("ca.crt", certV1)]) []) "akv2k8s/ca-bundle"
      = { api := apiOf (sourceSecret [("ca.crt", certV1)]) [], ops := []
          events := [{ kind := "Secret", ns := "akv2k8s", name := "ca-bundle",
                       eventtype := "Normal", reason := "Synced",
                       message := "CA Bundle synced successfully" }]
          ret := none } := by
  decide

/-- C15, amended: let the cache of configuration objects be in sync with the API
server at the start (it catches up again between the two handlers), let the namespace
lister answer in the same order in both runs (one Informers value serves both), let
the namespace of namespaceKey exist, and let the cached read of the secret of secretKey
and the direct read of the configured Source Secret give the same secret; any other
collaborator call may fail. Then running syncHandlerNewNamespace and after it
syncHandlerSecret, or the two in the opposite order, leaves the same object (or none)
under the configured name in that namespace; when none was stored at the start and
neither the cached read nor the create of that object fails, both orders end with
exactly the object newConfigMap builds from the secret. -/
theorem C15_handlers_commute_amended
    (c : CABundleInjector.Controller) (faults : Faults) (inf : Informers) (api : ApiServer)
    (namespaceKey secretKey secretNamespace secretName : String)
    (n : Namespace) (secret : Secret)
    (hsync : inf.configMaps = api.configMaps)
    (hns : namespaceListerGet { faults := faults, informers := inf } namespaceKey = .ok n)
    (hkey : SplitMetaNamespaceKey secretKey = some (secretNamespace, secretName))
    (hcached : secretListerGet { faults := faults, informers := inf }
      secretNamespace secretName = .ok secret)
    (hdirect : secretsGet { faults := faults, informers := inf } api
      c.caBundleSecretNamespaceName c.caBundleSecretName = .ok secret) :
    (newNamespaceThenSecret c { faults := faults, informers := inf } api
        namespaceKey secretKey).configMap namespaceKey c.caBundleConfigMapName
      = (secretThenNewNamespace c { faults := faults, informers := inf } api
        namespaceKey secretKey).configMap namespaceKey c.caBundleConfigMapName ∧
    (api.configMap namespaceKey c.caBundleConfigMapName = none →
      faults.configMapsCreate namespaceKey c.caBundleConfigMapName = none →
      faults.configMapLister namespaceKey c.caBundleConfigMapName = none →
      (newNamespaceThenSecret c { faults := faults, informers := inf } api
        namespaceKey secretKey).configMap namespaceKey c.caBundleConfigMapName
        = some (CABundleInjector.newConfigMap c.caBundleConfigMapName namespaceKey secret)) := by
  have henv := resync_of_in_sync faults inf api hsync
  -- the secret-changed handler run first, and what it keeps
  have hkeepB := CABundleInjector.keeps_syncHandlerSecret c
    { faults := faults, informers := inf } api secretKey secretNamespace secretName
    namespaceKey secret hkey hcached
  have hdirectB : secretsGet { faults := faults, informers := inf }
      (CABundleInjector.syncHandlerSecret c { faults := faults, informers := inf }
        api secretKey).api
      c.caBundleSecretNamespaceName c.caBundleSecretName = .ok secret := by
    have hs := hkeepB.1
    simp only [secretsGet, hs] at hdirect ⊢
    exact hdirect
  -- the newly-labelled handler on the start state and on the state the other one leaves
  have hA1 := CABundleInjector.syncHandlerNewNamespace_in_sync c faults inf api namespaceKey n
    secret hns hdirect
  rw [henv] at hA1
  have hB1 := CABundleInjector.syncHandlerNewNamespace_in_sync c faults inf
    (CABundleInjector.syncHandlerSecret c { faults := faults, informers := inf }
      api secretKey).api namespaceKey n secret hns hdirectB
  have hbuilt : ∀ a : ApiServer, a.configMap namespaceKey c.caBundleConfigMapName = none →
      ({ a with configMaps := a.configMaps ++
          [CABundleInjector.newConfigMap c.caBundleConfigMapName namespaceKey secret] }
        : ApiServer).configMap namespaceKey c.caBundleConfigMapName
        = some (CABundleInjector.newConfigMap c.caBundleConfigMapName namespaceKey secret) := by
    intro a ha
    have ha' : List.find? (fun cm => cm.ns == namespaceKey && cm.name == c.caBundleConfigMapName)
        a.configMaps = none := ha
    simp [ApiServer.configMap, List.find?_append, ha', CABundleInjector.newConfigMap]
  by_cases hG : api.configMap namespaceKey c.caBundleConfigMapName = none ∧
      faults.allowCreate namespaceKey c.caBundleConfigMapName = true
  · -- the newly-labelled handler creates the object on the start state
    rw [if_pos hG] at hA1
    have hkeepA := CABundleInjector.keeps_syncHandlerSecret c
      (resync { faults := faults, informers := inf }
        (CABundleInjector.syncHandlerNewNamespace c
          { faults := faults, informers := inf } api namespaceKey).api)
      (CABundleInjector.syncHandlerNewNamespace c
          { faults := faults, informers := inf } api namespaceKey).api
      secretKey secretNamespace secretName namespaceKey secret hkey hcached
    have hA : (newNamespaceThenSecret c { faults := faults, informers := inf } api
        namespaceKey secretKey).configMap namespaceKey c.caBundleConfigMapName
        = some (CABundleInjector.newConfigMap c.caBundleConfigMapName namespaceKey secret) := by
      apply hkeepA.2.1
      rw [hA1]
      exact hbuilt api hG.1
    have hB : (secretThenNewNamespace c { faults := faults, informers := inf } api
        namespaceKey secretKey).configMap namespaceKey c.caBundleConfigMapName
        = some (CABundleInjector.newConfigMap c.caBundleConfigMapName namespaceKey secret) := by
      simp only [secretThenNewNamespace]
      rw [hB1]
      rcases hkeepB.2.2.1 hG.1 with hnone | hsome
      · rw [if_pos ⟨hnone, hG.2⟩]
        exact hbuilt _ hnone
      · rw [if_neg (by rw [hsome]; simp)]
        exact hsome
    exact ⟨by rw [hA, hB], fun _ _ _ => hA⟩
  · -- the newly-labelled handler changes nothing on the start state
    rw [if_neg hG] at hA1
    have hA : newNamespaceThenSecret c { faults := faults, informers := inf } api
        namespaceKey secretKey
        = (CABundleInjector.syncHandlerSecret c { faults := faults, informers := inf }
            api secretKey).api := by
      simp only [newNamespaceThenSecret, hA1, henv]
    have hB : secretThenNewNamespace c { faults := faults, informers := inf } api
        namespaceKey secretKey
        = (CABundleInjector.syncHandlerSecret c { faults := faults, informers := inf }
            api secretKey).api := by
      simp only [secretThenNewNamespace]
      rw [hB1]
      apply if_neg
      intro hR
      apply hG
      refine ⟨?_, hR.2⟩
      cases hstart : api.configMap namespaceKey c.caBundleConfigMapName with
      | none => rfl
      | some cm0 =>
        have hsome := hkeepB.2.2.2 (by rw [hstart]; rfl)
        rw [hR.1] at hsome
        cases hsome
    refine ⟨by rw [hA, hB], ?_⟩
    intro hnone hcreate hlister
    exact absurd ⟨hnone, by simp [Faults.allowCreate, hcreate, hlister]⟩ hG

/-- C15, amended, at a concrete state: namespaces a and b are opt-in and hold no
object. The secret-changed handler alone would stop after creating the object of a; in
either order with the newly-labelled handler for b, namespace b ends with the object
built from the secret. -/
theorem C15_handlers_commute_amended_witness :
    (newNamespaceThenSecret injector
        (envOf (sourceSecret [("caCert", certV1)])
          [labelled "a" "enabled", labelled "b" "enabled"] [])
        (apiOf (sourceSecret [("caCert", certV1)]) [])
        "b" "akv2k8s/ca-bundle").configMap "b" injector.caBundleConfigMapName
      = (secretThenNewNamespace injector
        (envOf (sourceSecret [("caCert", certV1)])
          [labelled "a" "enabled", labelled "b" "enabled"] [])
        (apiOf (sourceSecret [("caCert", certV1)]) [])
        "b" "akv2k8s/ca-bundle").configMap "b" injector.caBundleConfigMapName ∧
    (newNamespaceThenSecret injector
        (envOf (sourceSecret [("caCert", certV1)])
          [labelled "a" "enabled", labelled "b" "enabled"] [])
        (apiOf (sourceSecret [("caCert", certV1)]) [])
        "b" "akv2k8s/ca-bundle").configMap "b" injector.caBundleConfigMapName
      = some (CABundleInjector.newConfigMap injector.caBundleConfigMapName "b"
          (sourceSecret [("caCert", certV1)])) :=
  have h := C15_handlers_commute_amended injector noFaults
    { secrets := [sourceSecret [("caCert", certV1)]],
      namespaces := [labelled "a" "enabled", labelled "b" "enabled"], configMaps := [] }
    (apiOf (sourceSecret [("caCert", certV1)]) [])
    "b" "akv2k8s/ca-bundle" "akv2k8s" "ca-bundle" (labelled "b" "enabled")
    (sourceSecret [("caCert", certV1)])
    rfl (by decide) (by decide) (by decide) (by decide)
  ⟨h.1, h.2 (by decide) rfl rfl⟩

/-- C15, counterexample. The secret holds CERT_V2 and namespace n holds the object built
while the secret held CERT_V1. (1) Namespaces m and n are opt-in, m holds a foreign
object, the cache is in sync. When the lister answers m, n, the newly-labelled handler
for n followed by the secret-changed handler leaves CERT_V1 in n (the pass ends with
the conflict error at m); when the lister answers n, m, the secret-changed handler
followed by the newly-labelled handler leaves CERT_V2 in n. (2) Only n is opt-in and
the cache does not show its object yet. The newly-labelled handler first (its create is
refused, the cache catches up, the other handler updates) leaves CERT_V2 in n; the
secret-changed handler first (its create is refused and ends the pass, the other
handler then finds the object) leaves CERT_V1 in n. -/
theorem C15_orders_disagree :
    (newNamespaceThenSecret injector
        (envOf (sourceSecret [("caCert", certV2)])
          [labelled "m" "enabled", labelled "n" "enabled"]
          [foreignConfigMap "m",
           CABundleInjector.newConfigMap "akv2k8s-ca" "n" (sourceSecret [("caCert", certV1)])])
        (apiOf (sourceSecret [("caCert", certV2)])
          [foreignConfigMap "m",
           CABundleInjector.newConfigMap "akv2k8s-ca" "n" (sourceSecret [("caCert", certV1)])])
        "n" "akv2k8s/ca-bundle").configMap "n" "akv2k8s-ca"
      = some (CABundleInjector.newConfigMap "akv2k8s-ca" "n"
          (sourceSecret [("caCert", certV1)])) ∧
    (secretThenNewNamespace injector
        (envOf (sourceSecret [("caCert", certV2)])
          [labelled "n" "enabled", labelled "m" "enabled"]
          [foreignConfigMap "m",
           CABundleInjector.newConfigMap "akv2k8s-ca" "n" (sourceSecret [("caCert", certV1)])])
        (apiOf (sourceSecret [("caCert", certV2)])
          [foreignConfigMap "m",
           CABundleInjector.newConfigMap "akv2k8s-ca" "n" (sourceSecret [("caCert", certV1)])])
        "n" "akv2k8s/ca-bundle").configMap "n" "akv2k8s-ca"
      = some (CABundleInjector.newConfigMap "akv2k8s-ca" "n"
          (sourceSecret [("caCert", certV2)])) ∧
    (newNamespaceThenSecret injector
        (envOf (sourceSecret [("caCert", certV2)]) [labelled "n" "enabled"] [])
        (apiOf (sourceSecret [("caCert", certV2)])
          [CABundleInjector.newConfigMap "akv2k8s-ca" "n" (sourceSecret [("caCert", certV1)])])
        "n" "akv2k8s/ca-bundle").configMap "n" "akv2k8s-ca"
      = some (CABundleInjector.newConfigMap "akv2k8s-ca" "n"
          (sourceSecret [("caCert", certV2)])) ∧
    (secretThenNewNamespace injector
        (envOf (sourceSecret [("caCert", certV2)]) [labelled "n" "enabled"] [])
        (apiOf (sourceSecret [("caCert", certV2)])
          [CABundleInjector.newConfigMap "akv2k8s-ca" "n" (sourceSecret [("caCert", certV1)])])
        "n" "akv2k8s/ca-bundle").configMap "n" "akv2k8s-ca"
      = some (CABundleInjector.newConfigMap "akv2k8s-ca" "n"
          (sourceSecret [("caCert", certV1)])) ∧
    CABundleInjector.newConfigMap "akv2k8s-ca" "n" (sourceSecret [("caCert", certV1)])
      ≠ CABundleInjector.newConfigMap "akv2k8s-ca" "n" (sourceSecret [("caCert", certV2)]) := by
  decide

/-- C16: processNextWorkItem. When Get reports shutdown the step returns false, makes
no call on the queue and invokes no handler. Otherwise it returns true. For an item
that is not a string it calls Forget and Done on it and invokes no handler. For a
string key on the secret, newly-labelled or label-changed queue it invokes the handler
of that queue, once, and then calls Forget followed by Done when the handler returned
nil, AddRateLimited followed by Done when it returned an error. In every case without
shutdown Done is called on the item exactly once. -/
theorem C16_processNextWorkItem
    (c : CABundleInjector.Controller) (env : Env) (api : ApiServer)
    (obj : CABundleInjector.WorkItem) (typeOfQueue key description : String) :
    CABundleInjector.processNextWorkItem c env api obj true typeOfQueue
      = { result := false, queueCalls := [], handlerCalls := [], api := api, ops := [] } ∧
    (CABundleInjector.processNextWorkItem c env api obj false typeOfQueue).result = true ∧
    CABundleInjector.processNextWorkItem c env api (.other description) false typeOfQueue
      = { result := true
          queueCalls := [CABundleInjector.QueueCall.forget (.other description),
                         CABundleInjector.QueueCall.done (.other description)]
          handlerCalls := [], api := api, ops := [] } ∧
    CABundleInjector.processNextWorkItem c env api (.key key) false
        CABundleInjector.workQueueTypeSecret
      = { result := true
          queueCalls :=
            match (CABundleInjector.syncHandlerSecret c env api key).ret with
            | none => [CABundleInjector.QueueCall.forget (.key key),
                       CABundleInjector.QueueCall.done (.key key)]
            | some _ => [CABundleInjector.QueueCall.addRateLimited (.key key),
                         CABundleInjector.QueueCall.done (.key key)]
          handlerCalls := [CABundleInjector.HandlerCall.syncHandlerSecret key]
          api := (CABundleInjector.syncHandlerSecret c env api key).api
          ops := (CABundleInjector.syncHandlerSecret c env api key).ops } ∧
    CABundleInjector.processNextWorkItem c env api (.key key) false
        CABundleInjector.workQueueTypeNewNamespace
      = { result := true
          queueCalls :=
            match (CABundleInjector.syncHandlerNewNamespace c env api key).ret with
            | none => [CABundleInjector.QueueCall.forget (.key key),
                       CABundleInjector.QueueCall.done (.key key)]
            | some _ => [CABundleInjector.QueueCall.addRateLimited (.key key),
                         CABundleInjector.QueueCall.done (.key key)]
          handlerCalls := [CABundleInjector.HandlerCall.syncHandlerNewNamespace key]
          api := (CABundleInjector.syncHandlerNewNamespace c env api key).api
          ops := (CABundleInjector.syncHandlerNewNamespace c env api key).ops } ∧
    CABundleInjector.processNextWorkItem c env api (.key key) false
        CABundleInjector.workQueueTypeChangedNamespace
      = { result := true
          queueCalls :=
            match (CABundleInjector.syncHandlerChangedNamespace c env api key).ret with
            | none => [CABundleInjector.QueueCall.forget (.key key),
                       CABundleInjector.QueueCall.done (.key key)]
            | some _ => [CABundleInjector.QueueCall.addRateLimited (.key key),
                         CABundleInjector.QueueCall.done (.key key)]
          handlerCalls := [CABundleInjector.HandlerCall.syncHandlerChangedNamespace key]
          api := (CABundleInjector.syncHandlerChangedNamespace c env api key).api
          ops := (CABundleInjector.syncHandlerChangedNamespace c env api key).ops } ∧
    (CABundleInjector.processNextWorkItem c env api obj false typeOfQueue).queueCalls.count
        (CABundleInjector.QueueCall.done obj) = 1 := by
  refine ⟨by simp [CABundleInjector.processNextWorkItem], ?_,
    by simp [CABundleInjector.processNextWorkItem], ?_, ?_, ?_, ?_⟩
  · cases obj with
    | other d => simp [CABundleInjector.processNextWorkItem]
    | key s =>
      cases h : (CABundleInjector.dispatchHandler c env api typeOfQueue s).2.ret <;>
        simp [CABundleInjector.processNextWorkItem, h]
  · cases h : (CABundleInjector.syncHandlerSecret c env api key).ret <;>
      simp [CABundleInjector.processNextWorkItem, CABundleInjector.dispatchHandler, h]
  · cases h : (CABundleInjector.syncHandlerNewNamespace c env api key).ret <;>
      simp [CABundleInjector.processNextWorkItem, CABundleInjector.dispatchHandler, h,
        CABundleInjector.workQueueTypeSecret, CABundleInjector.workQueueTypeNewNamespace]
  · cases h : (CABundleInjector.syncHandlerChangedNamespace c env api key).ret <;>
      simp [CABundleInjector.processNextWorkItem, CABundleInjector.dispatchHandler, h,
        CABundleInjector.workQueueTypeSecret, CABundleInjector.workQueueTypeNewNamespace,
        CABundleInjector.workQueueTypeChangedNamespace]
  · cases obj with
    | other d => simp [CABundleInjector.processNextWorkItem, List.count_cons]
    | key s =>
      cases h : (CABundleInjector.dispatchHandler c env api typeOfQueue s).2.ret <;>
        simp [CABundleInjector.processNextWorkItem, h, List.count_cons]

/-- C17, evaluated. The informer missed the delete event of the configured secret
akv2k8s/ca-bundle and reports the deletion with a cache.DeletedFinalStateUnknown value.
The DeleteFunc panics in its type assertion: it yields no result and no key reaches the
secret queue, although the name of the deleted secret is the configured one. The same
deletion reported with the secret itself puts akv2k8s/ca-bundle on the secret queue. -/
theorem C17_delete_tombstone_enqueues_nothing :
    (sourceSecret [("caCert", certV1)]).name = injector.caBundleSecretName ∧
    CABundleInjector.secretDeleteFunc injector
        { secretWorkqueue := [], newNamespaceWorkqueue := [], changedNamespaceWorkqueue := [] }
        (.deletedFinalStateUnknown "akv2k8s/ca-bundle" (sourceSecret [("caCert", certV1)]))
      = none ∧
    CABundleInjector.secretDeleteFunc injector
        { secretWorkqueue := [], newNamespaceWorkqueue := [], changedNamespaceWorkqueue := [] }
        (.object (sourceSecret [("caCert", certV1)]))
      = some { secretWorkqueue := ["akv2k8s/ca-bundle"], newNamespaceWorkqueue := [],
               changedNamespaceWorkqueue := [] } := by
  decide

/-- C18: namespace update. The UpdateFunc appends the key of the new namespace (its
bare name) to the label-changed queue exactly when the resource version of the new
object differs from the old one and the value of the opt-in label, read as the empty
string when the label is missing, differs between old and new; otherwise it leaves the
queues as they are. It never changes the newly-labelled or the secret queue. -/
theorem C18_namespace_update
    (c : CABundleInjector.Controller) (q : CABundleInjector.Queues) (old new : Namespace) :
    ((CABundleInjector.namespaceUpdateFunc c q old new).changedNamespaceWorkqueue
        = q.changedNamespaceWorkqueue ++ [new.name]
      ↔ (new.resourceVersion ≠ old.resourceVersion ∧
          (new.labels.lookup c.labelName).getD "" ≠ (old.labels.lookup c.labelName).getD "")) ∧
    ((CABundleInjector.namespaceUpdateFunc c q old new).changedNamespaceWorkqueue
        = q.changedNamespaceWorkqueue
      ↔ ¬ (new.resourceVersion ≠ old.resourceVersion ∧
          (new.labels.lookup c.labelName).getD "" ≠ (old.labels.lookup c.labelName).getD "")) ∧
    (CABundleInjector.namespaceUpdateFunc c q old new).newNamespaceWorkqueue
      = q.newNamespaceWorkqueue ∧
    (CABundleInjector.namespaceUpdateFunc c q old new).secretWorkqueue = q.secretWorkqueue := by
  refine ⟨?_, ?_, ?_, ?_⟩ <;>
    by_cases hv : new.resourceVersion = old.resourceVersion <;>
    by_cases hl : (new.labels.lookup c.labelName).getD "" = (old.labels.lookup c.labelName).getD "" <;>
    simp [CABundleInjector.namespaceUpdateFunc, CABundleInjector.enqueueChangedNamespace,
      MetaNamespaceKeyFunc, mapIndex, hv, hl]

/-- C19: namespace add. The AddFunc appends the key of the namespace, which is its bare
name, to the newly-labelled queue exactly when the namespace carries the opt-in label
with a value that is not the empty string; otherwise it leaves the queues as they
are. It never changes the label-changed or the secret queue. -/
theorem C19_namespace_add
    (c : CABundleInjector.Controller) (q : CABundleInjector.Queues) (obj : Namespace) :
    ((CABundleInjector.namespaceAddFunc c q obj).newNamespaceWorkqueue
        = q.newNamespaceWorkqueue ++ [obj.name]
      ↔ ∃ value, obj.labels.lookup c.labelName = some value ∧ value ≠ "") ∧
    ((CABundleInjector.namespaceAddFunc c q obj).newNamespaceWorkqueue
        = q.newNamespaceWorkqueue
      ↔ ¬ ∃ value, obj.labels.lookup c.labelName = some value ∧ value ≠ "") ∧
    (CABundleInjector.namespaceAddFunc c q obj).changedNamespaceWorkqueue
      = q.changedNamespaceWorkqueue ∧
    (CABundleInjector.namespaceAddFunc c q obj).secretWorkqueue = q.secretWorkqueue := by
  cases hl : obj.labels.lookup c.labelName with
  | none =>
    simp [CABundleInjector.namespaceAddFunc, CABundleInjector.enqueueNewNamespace,
      MetaNamespaceKeyFunc, mapIndex, hl]
  | some value =>
    by_cases hv : value = "" <;>
      simp [CABundleInjector.namespaceAddFunc, CABundleInjector.enqueueNewNamespace,
        MetaNamespaceKeyFunc, mapIndex, hl, hv]

/-- C20, evaluated. The controller is configured with the configuration-object name
my-ca-bundle. Namespace a is opt-in and already holds the object my-ca-bundle built
from the secret. syncHandlerSecret looks the object up under the literal name
akv2k8s-ca, finds nothing, and sends a create for my-ca-bundle, which the API server
refuses because that object exists: the name it reads is not the name it writes. -/
theorem C20_lookup_name_is_not_the_written_name :
    configMapListerGet
        (envOf (sourceSecret [("caCert", certV1)]) [labelled "a" "enabled"]
          [CABundleInjector.newConfigMap "my-ca-bundle" "a" (sourceSecret [("caCert", certV1)])])
        "a" "my-ca-bundle"
      = .ok (CABundleInjector.newConfigMap "my-ca-bundle" "a"
          (sourceSecret [("caCert", certV1)])) ∧
    CABundleInjector.syncHandlerSecret
        { injector with caBundleConfigMapName := "my-ca-bundle" }
        (envOf (sourceSecret [("caCert", certV1)]) [labelled "a" "enabled"]
          [CABundleInjector.newConfigMap "my-ca-bundle" "a" (sourceSecret [("caCert", certV1)])])
        (apiOf (sourceSecret [("caCert", certV1)])
          [CABundleInjector.newConfigMap "my-ca-bundle" "a" (sourceSecret [("caCert", certV1)])])
        "akv2k8s/ca-bundle"
      = { api := apiOf (sourceSecret [("caCert", certV1)])
            [CABundleInjector.newConfigMap "my-ca-bundle" "a"
              (sourceSecret [("caCert", certV1)])]
          ops := [Op.create "a" (CABundleInjector.newConfigMap "my-ca-bundle" "a"
            (sourceSecret [("caCert", certV1)]))]
          events := []
          ret := some (GoError.statusAlreadyExists "configmaps" "my-ca-bundle") } := by
  decide

end Akv2k8s
